import Mathlib

/-!
Verification of the lifecycle/webhook core of the `smartapp-sensortrack` repository
(`src/smartapp/`): the wire model and its camelCase JSON mapping (`converter.py`,
`interface.py`), the lifecycle dispatcher (`dispatcher.py`), and HTTP signature
verification with its public-key cache (`signature.py`).

Shallow-embedding conventions:

* Python exceptions are modelled with `Except`: a function that can raise returns
  `Except PyError α` (or `Except SignatureError α` for the verifier).
* JSON documents are modelled by the inductive `Json` below.  The Python `json`
  standard-library codec is embedded as a real printer (`dumps`, mirroring
  `json.dumps(obj, indent="  ")`) and a fuel-based recursive-descent reader
  (`loads`, mirroring `json.loads`); the reader covers the JSON fragment
  exercised by this protocol (integers rather than floats, and `\uXXXX` escapes
  limited to the basic plane).
* `pendulum` timestamps are modelled as UTC calendar components (`PDateTime`).
  Equality of pendulum datetimes at equal instants coincides with component
  equality in this UTC model.  The wall clock `pendulum.now()` is threaded as an
  explicit parameter wherever the source calls it.
* attrs-generated `repr` output is embedded by the `repr*` functions, which render
  exactly the fields whose source declaration does not carry `repr=False`.
-/

deriving instance DecidableEq for Except

namespace SmartApp

/-- Python exception values raised along the embedded code paths.  The last
three constructors are the `SmartAppError` subclasses from `interface.py`
(each carries a message and an optional correlation id); `exception` stands
for any other `Exception`. -/
inductive PyError where
  | keyError (key : String)
  | valueError (msg : String)
  | typeError (msg : String)
  | indexError (msg : String)
  | signatureError (message : String) (correlation_id : Option String)
  | badRequestError (message : String) (correlation_id : Option String)
  | internalError (message : String) (correlation_id : Option String)
  | exception (msg : String)
deriving DecidableEq, Repr

/-- JSON documents, as produced by `json.loads` / consumed by `json.dumps`.
Numbers are integers: the lifecycle wire format carries no floating-point
fields.  Arrays and objects are spelled with their own nil/cons constructors
(rather than `List` fields) so that every function on `Json` is plain
structural recursion; `Json.arr` and `Json.obj` below recover list notation. -/
inductive Json where
  | null
  | bool (b : Bool)
  | num (n : Int)
  | str (s : String)
  | arrNil
  | arrCons (head tail : Json)
  | objNil
  | objCons (key : String) (value tail : Json)
deriving DecidableEq, Repr

/-- Build a JSON array from a list of values. -/
def Json.arr (items : List Json) : Json :=
  items.foldr Json.arrCons Json.arrNil

/-- Build a JSON object from an ordered association list. -/
def Json.obj (fields : List (String × Json)) : Json :=
  fields.foldr (fun kv t => Json.objCons kv.1 kv.2 t) Json.objNil

/-- View a JSON value as an array, returning its elements in order. -/
def Json.asArr? : Json → Option (List Json)
  | .arrNil => some []
  | .arrCons h t => (Json.asArr? t).map (h :: ·)
  | _ => none

/-- View a JSON value as an object, returning its fields in order. -/
def Json.asObj? : Json → Option (List (String × Json))
  | .objNil => some []
  | .objCons k v t => (Json.asObj? t).map ((k, v) :: ·)
  | _ => none

/-- Key lookup in a JSON object, mirroring Python `dict[key]` access order
(first binding wins; the embedded objects never carry duplicate keys). -/
def jlookup : List (String × Json) → String → Option Json
  | [], _ => none
  | (k, v) :: rest, key => if k = key then some v else jlookup rest key

/-- The keys of a JSON object in order, used to state the camelCase invariant. -/
def Json.objKeys : Json → List String
  | .objCons k _ t => k :: Json.objKeys t
  | _ => []

/-! ### Reduction-friendly string primitives

The embedding avoids the position-based core `String` routines (which do not
evaluate inside the kernel) in favour of list-of-character equivalents of the
Python string methods it models. -/

/-- Python `str.lower()` (ASCII). -/
def pyLower (s : String) : String :=
  ⟨s.data.map Char.toLower⟩

def isPyWs (c : Char) : Bool :=
  c = ' ' ∨ c = '\t' ∨ c = '\n' ∨ c = '\r' ∨ c = '\x0b' ∨ c = '\x0c'

/-- Python `str.strip()` with no argument (ASCII whitespace). -/
def pyStrip (s : String) : String :=
  ⟨((s.data.dropWhile isPyWs).reverse.dropWhile isPyWs).reverse⟩

def splitOnCharsAux (sep : List Char) : Nat → List Char → List Char → List (List Char)
  | _, [], acc => [acc.reverse]
  | 0, l, acc => [acc.reverse ++ l]
  | fuel + 1, l, acc =>
      if sep.isPrefixOf l then
        acc.reverse :: splitOnCharsAux sep fuel (l.drop sep.length) []
      else
        match l with
        | [] => [acc.reverse]
        | c :: rest => splitOnCharsAux sep fuel rest (c :: acc)

/-- Python `str.split(sep)` for a non-empty separator (also the behaviour of
`str.split_on` in the source's helpers). -/
def pySplitOn (s sep : String) : List String :=
  if sep = "" then [s]
  else (splitOnCharsAux sep.data (s.data.length + 1) s.data []).map (fun l => ⟨l⟩)

/-- Python `str.startswith(p)`. -/
def pyStartsWith (s p : String) : Bool :=
  p.data.isPrefixOf s.data

/-! ### camelCase field naming (`converter.py`, `StandardConverter._to_camel_case`)

The cattrs factory hooks rename every attrs field from its snake_case Python
name to `components[0] + "".join(x.title() for x in components[1:])` where
`components = name.split("_")`. -/

/-- One step of Python `str.title()`: uppercase a letter that follows a
non-letter, lowercase every other letter (the field names are ASCII). -/
def pyTitleAux : List Char → Bool → List Char
  | [], _ => []
  | c :: rest, prevAlpha =>
      if c.isAlpha then
        (if prevAlpha then c.toLower else c.toUpper) :: pyTitleAux rest true
      else
        c :: pyTitleAux rest false

/-- Python `str.title()` restricted to ASCII text, as applied to the snake_case
components of attrs field names. -/
def pyTitle (s : String) : String :=
  ⟨pyTitleAux s.data false⟩

/-- `StandardConverter._to_camel_case`: `components = name.split("_")`;
`components[0] + "".join(x.title() for x in components[1:])`. -/
def toCamelCase (name : String) : String :=
  match pySplitOn name "_" with
  | [] => ""
  | c :: rest => c ++ String.join (rest.map pyTitle)

/-! ### Timestamps (`converter.py`)

`serialize_datetime` always renders the full millisecond format in UTC;
`deserialize_datetime` accepts the millisecond form, the second form, and maps
the UNIX-epoch sentinel to `now()`. -/

/-- A pendulum `DateTime` in the UTC model: calendar components plus
microseconds. -/
structure PDateTime where
  year : Nat
  month : Nat
  day : Nat
  hour : Nat
  minute : Nat
  second : Nat
  microsecond : Nat
deriving DecidableEq, Repr

def isLeapYear (y : Nat) : Bool :=
  (y % 4 == 0 && y % 100 != 0) || y % 400 == 0

def daysInMonth (y m : Nat) : Nat :=
  if m = 2 then (if isLeapYear y then 29 else 28)
  else if m = 4 ∨ m = 6 ∨ m = 9 ∨ m = 11 then 30
  else 31

/-- The calendar components that `pendulum.datetime` accepts (year 1–9999). -/
def PDateTime.valid (dt : PDateTime) : Prop :=
  1 ≤ dt.year ∧ dt.year ≤ 9999 ∧ 1 ≤ dt.month ∧ dt.month ≤ 12 ∧
  1 ≤ dt.day ∧ dt.day ≤ daysInMonth dt.year dt.month ∧
  dt.hour ≤ 23 ∧ dt.minute ≤ 59 ∧ dt.second ≤ 59 ∧ dt.microsecond ≤ 999999

instance (dt : PDateTime) : Decidable dt.valid := by
  unfold PDateTime.valid; infer_instance

/-- The UNIX-epoch instant, whose rendering is the "no timestamp" sentinel. -/
def epochDateTime : PDateTime := ⟨1970, 1, 1, 0, 0, 0, 0⟩

def pad2 (n : Nat) : List Char :=
  [Nat.digitChar (n / 10 % 10), Nat.digitChar (n % 10)]

def pad3 (n : Nat) : List Char :=
  [Nat.digitChar (n / 100 % 10), Nat.digitChar (n / 10 % 10), Nat.digitChar (n % 10)]

def pad4 (n : Nat) : List Char :=
  [Nat.digitChar (n / 1000 % 10), Nat.digitChar (n / 100 % 10),
   Nat.digitChar (n / 10 % 10), Nat.digitChar (n % 10)]

/-- `serialize_datetime`: format `YYYY-MM-DD[T]HH:mm:ss.SSS[Z]` in UTC;
the `SSS` field is the millisecond part `microsecond / 1000`. -/
def serialize_datetime (dt : PDateTime) : String :=
  ⟨pad4 dt.year ++ '-' :: pad2 dt.month ++ '-' :: pad2 dt.day ++
   'T' :: pad2 dt.hour ++ ':' :: pad2 dt.minute ++ ':' :: pad2 dt.second ++
   '.' :: pad3 (dt.microsecond / 1000) ++ ['Z']⟩

def DATETIME_SEC_EPOCH : String := "1970-01-01T00:00:00Z"
def DATETIME_MS_EPOCH : String := "1970-01-01T00:00:00.000Z"

def digitVal? (c : Char) : Option Nat :=
  if '0' ≤ c ∧ c ≤ '9' then some (c.toNat - 48) else none

/-- Combine fixed-width digit reads, failing on any non-digit. -/
def digits2 (a b : Char) : Option Nat := do
  pure ((← digitVal? a) * 10 + (← digitVal? b))

def digits3 (a b c : Char) : Option Nat := do
  pure ((← digitVal? a) * 100 + (← digitVal? b) * 10 + (← digitVal? c))

def digits4 (a b c d : Char) : Option Nat := do
  pure ((← digitVal? a) * 1000 + (← digitVal? b) * 100 + (← digitVal? c) * 10 + (← digitVal? d))

/-- Range validation performed by `pendulum.from_format` when it builds the
datetime. -/
def checkRanges (year month day hour minute second : Nat) : Bool :=
  decide (1 ≤ year ∧ year ≤ 9999 ∧ 1 ≤ month ∧ month ≤ 12 ∧ 1 ≤ day ∧
          day ≤ daysInMonth year month ∧ hour ≤ 23 ∧ minute ≤ 59 ∧ second ≤ 59)

/-- Parse `YYYY-MM-DD[T]HH:mm:ss.SSS[Z]` (length 24). -/
def parseDatetimeMs (s : String) : Except PyError PDateTime :=
  match s.data with
  | [y1, y2, y3, y4, '-', mo1, mo2, '-', d1, d2, 'T',
     h1, h2, ':', mi1, mi2, ':', s1, s2, '.', ms1, ms2, ms3, 'Z'] =>
      match digits4 y1 y2 y3 y4, digits2 mo1 mo2, digits2 d1 d2,
            digits2 h1 h2, digits2 mi1 mi2, digits2 s1 s2, digits3 ms1 ms2 ms3 with
      | some year, some month, some day, some hour, some minute, some second, some ms =>
          if checkRanges year month day hour minute second then
            .ok ⟨year, month, day, hour, minute, second, ms * 1000⟩
          else
            .error (.valueError ("Invalid date: " ++ s))
      | _, _, _, _, _, _, _ => .error (.valueError ("Invalid date: " ++ s))
  | _ => .error (.valueError ("Invalid date: " ++ s))

/-- Parse `YYYY-MM-DD[T]HH:mm:ss[Z]` (length 20). -/
def parseDatetimeSec (s : String) : Except PyError PDateTime :=
  match s.data with
  | [y1, y2, y3, y4, '-', mo1, mo2, '-', d1, d2, 'T',
     h1, h2, ':', mi1, mi2, ':', s1, s2, 'Z'] =>
      match digits4 y1 y2 y3 y4, digits2 mo1 mo2, digits2 d1 d2,
            digits2 h1 h2, digits2 mi1 mi2, digits2 s1 s2 with
      | some year, some month, some day, some hour, some minute, some second =>
          if checkRanges year month day hour minute second then
            .ok ⟨year, month, day, hour, minute, second, 0⟩
          else
            .error (.valueError ("Invalid date: " ++ s))
      | _, _, _, _, _, _ => .error (.valueError ("Invalid date: " ++ s))
  | _ => .error (.valueError ("Invalid date: " ++ s))

/-- `deserialize_datetime`: the epoch sentinels mean "no timestamp" and are
mapped to `now()` (passed here as `nowDt`); otherwise the format is selected by
string length, and anything else raises `ValueError`. -/
def deserialize_datetime (nowDt : PDateTime) (datetime : String) : Except PyError PDateTime :=
  if datetime = DATETIME_MS_EPOCH ∨ datetime = DATETIME_SEC_EPOCH then
    .ok nowDt
  else if datetime.length = 24 then
    parseDatetimeMs datetime
  else if datetime.length = 20 then
    parseDatetimeSec datetime
  else
    .error (.valueError ("Unknown datetime format: " ++ datetime))

/-! ### The lifecycle data model (`interface.py`)

attrs classes become structures, Python `Union` types become inductives, and
enums become inductives with their wire `value` string.  `Dict[...]` fields are
ordered association lists (Python dicts preserve insertion order, and so do
JSON objects here).  The field `initialize` of `ConfigInitData` is spelled
`initialize_` because `initialize` is reserved in Lean. -/

inductive LifecyclePhase where
  | CONFIRMATION | CONFIGURATION | INSTALL | UPDATE | UNINSTALL | OAUTH_CALLBACK | EVENT
deriving DecidableEq, Repr

/-- The `value` of each `LifecyclePhase` member (identical to its name). -/
def LifecyclePhase.value : LifecyclePhase → String
  | .CONFIRMATION => "CONFIRMATION"
  | .CONFIGURATION => "CONFIGURATION"
  | .INSTALL => "INSTALL"
  | .UPDATE => "UPDATE"
  | .UNINSTALL => "UNINSTALL"
  | .OAUTH_CALLBACK => "OAUTH_CALLBACK"
  | .EVENT => "EVENT"

/-- `LifecyclePhase[name]` lookup by member name (raising `KeyError` when the
name is unknown is handled at the call sites). -/
def LifecyclePhase.fromName? (s : String) : Option LifecyclePhase :=
  if s = "CONFIRMATION" then some .CONFIRMATION
  else if s = "CONFIGURATION" then some .CONFIGURATION
  else if s = "INSTALL" then some .INSTALL
  else if s = "UPDATE" then some .UPDATE
  else if s = "UNINSTALL" then some .UNINSTALL
  else if s = "OAUTH_CALLBACK" then some .OAUTH_CALLBACK
  else if s = "EVENT" then some .EVENT
  else none

inductive ConfigValueType where
  | DEVICE | STRING
deriving DecidableEq, Repr

def ConfigValueType.value : ConfigValueType → String
  | .DEVICE => "DEVICE"
  | .STRING => "STRING"

def ConfigValueType.fromName? (s : String) : Option ConfigValueType :=
  if s = "DEVICE" then some .DEVICE
  else if s = "STRING" then some .STRING
  else none

inductive ConfigPhase where
  | INITIALIZE | PAGE
deriving DecidableEq, Repr

def ConfigPhase.value : ConfigPhase → String
  | .INITIALIZE => "INITIALIZE"
  | .PAGE => "PAGE"

def ConfigPhase.fromValue? (s : String) : Option ConfigPhase :=
  if s = "INITIALIZE" then some .INITIALIZE
  else if s = "PAGE" then some .PAGE
  else none

inductive ConfigSettingType where
  | DEVICE | TEXT | BOOLEAN | ENUM | LINK | PAGE | IMAGE | ICON
  | TIME | PARAGRAPH | EMAIL | DECIMAL | NUMBER | PHONE | OAUTH
deriving DecidableEq, Repr

def ConfigSettingType.value : ConfigSettingType → String
  | .DEVICE => "DEVICE"
  | .TEXT => "TEXT"
  | .BOOLEAN => "BOOLEAN"
  | .ENUM => "ENUM"
  | .LINK => "LINK"
  | .PAGE => "PAGE"
  | .IMAGE => "IMAGE"
  | .ICON => "ICON"
  | .TIME => "TIME"
  | .PARAGRAPH => "PARAGRAPH"
  | .EMAIL => "EMAIL"
  | .DECIMAL => "DECIMAL"
  | .NUMBER => "NUMBER"
  | .PHONE => "PHONE"
  | .OAUTH => "OAUTH"

def ConfigSettingType.fromName? (s : String) : Option ConfigSettingType :=
  if s = "DEVICE" then some .DEVICE
  else if s = "TEXT" then some .TEXT
  else if s = "BOOLEAN" then some .BOOLEAN
  else if s = "ENUM" then some .ENUM
  else if s = "LINK" then some .LINK
  else if s = "PAGE" then some .PAGE
  else if s = "IMAGE" then some .IMAGE
  else if s = "ICON" then some .ICON
  else if s = "TIME" then some .TIME
  else if s = "PARAGRAPH" then some .PARAGRAPH
  else if s = "EMAIL" then some .EMAIL
  else if s = "DECIMAL" then some .DECIMAL
  else if s = "NUMBER" then some .NUMBER
  else if s = "PHONE" then some .PHONE
  else if s = "OAUTH" then some .OAUTH
  else none

inductive EventType where
  | DEVICE_COMMANDS_EVENT | DEVICE_EVENT | DEVICE_HEALTH_EVENT | DEVICE_LIFECYCLE_EVENT
  | HUB_HEALTH_EVENT | INSTALLED_APP_LIFECYCLE_EVENT | MODE_EVENT | SCENE_LIFECYCLE_EVENT
  | SECURITY_ARM_STATE_EVENT | TIMER_EVENT | WEATHER_EVENT
deriving DecidableEq, Repr

def EventType.value : EventType → String
  | .DEVICE_COMMANDS_EVENT => "DEVICE_COMMANDS_EVENT"
  | .DEVICE_EVENT => "DEVICE_EVENT"
  | .DEVICE_HEALTH_EVENT => "DEVICE_HEALTH_EVENT"
  | .DEVICE_LIFECYCLE_EVENT => "DEVICE_LIFECYCLE_EVENT"
  | .HUB_HEALTH_EVENT => "HUB_HEALTH_EVENT"
  | .INSTALLED_APP_LIFECYCLE_EVENT => "INSTALLED_APP_LIFECYCLE_EVENT"
  | .MODE_EVENT => "MODE_EVENT"
  | .SCENE_LIFECYCLE_EVENT => "SCENE_LIFECYCLE_EVENT"
  | .SECURITY_ARM_STATE_EVENT => "SECURITY_ARM_STATE_EVENT"
  | .TIMER_EVENT => "TIMER_EVENT"
  | .WEATHER_EVENT => "WEATHER_EVENT"

def EventType.fromValue? (s : String) : Option EventType :=
  if s = "DEVICE_COMMANDS_EVENT" then some .DEVICE_COMMANDS_EVENT
  else if s = "DEVICE_EVENT" then some .DEVICE_EVENT
  else if s = "DEVICE_HEALTH_EVENT" then some .DEVICE_HEALTH_EVENT
  else if s = "DEVICE_LIFECYCLE_EVENT" then some .DEVICE_LIFECYCLE_EVENT
  else if s = "HUB_HEALTH_EVENT" then some .HUB_HEALTH_EVENT
  else if s = "INSTALLED_APP_LIFECYCLE_EVENT" then some .INSTALLED_APP_LIFECYCLE_EVENT
  else if s = "MODE_EVENT" then some .MODE_EVENT
  else if s = "SCENE_LIFECYCLE_EVENT" then some .SCENE_LIFECYCLE_EVENT
  else if s = "SECURITY_ARM_STATE_EVENT" then some .SECURITY_ARM_STATE_EVENT
  else if s = "TIMER_EVENT" then some .TIMER_EVENT
  else if s = "WEATHER_EVENT" then some .WEATHER_EVENT
  else none

/-- `BooleanValue`, a string-valued enum: member names TRUE/FALSE carry wire
values "true"/"false". -/
inductive BooleanValue where
  | TRUE | FALSE
deriving DecidableEq, Repr

def BooleanValue.value : BooleanValue → String
  | .TRUE => "true"
  | .FALSE => "false"

def BooleanValue.fromValue? (s : String) : Option BooleanValue :=
  if s = "true" then some .TRUE
  else if s = "false" then some .FALSE
  else none

structure DeviceValue where
  device_id : String
  component_id : String
deriving DecidableEq, Repr

structure StringValue where
  value : String
deriving DecidableEq, Repr

/-- `ConfigValue = Union[DeviceConfigValue, StringConfigValue]`; the
`value_type` discriminator is determined by the variant. -/
inductive ConfigValue where
  | DeviceConfigValue (device_config : DeviceValue)
  | StringConfigValue (string_config : StringValue)
deriving DecidableEq, Repr

structure InstalledApp where
  installed_app_id : String
  location_id : String
  config : List (String × List ConfigValue)
  permissions : List String
deriving DecidableEq, Repr

/-- `Event`: the triggered event; only the attribute matching `event_type` is
normally populated, the other payload dicts stay `None`. -/
structure Event where
  event_time : Option PDateTime
  event_type : EventType
  device_event : Option (List (String × Json))
  device_lifecycle_event : Option (List (String × Json))
  device_health_event : Option (List (String × Json))
  device_commands_event : Option (List (String × Json))
  mode_event : Option (List (String × Json))
  timer_event : Option (List (String × Json))
  scene_lifecycle_event : Option (List (String × Json))
  security_arm_state_event : Option (List (String × Json))
  hub_health_event : Option (List (String × Json))
  installed_app_lifecycle_event : Option (List (String × Json))
  weather_event : Option (List (String × Json))
  weather_data : Option (List (String × Json))
  air_quality_data : Option (List (String × Json))
deriving DecidableEq, Repr

structure ConfirmationData where
  app_id : String
  confirmation_url : String
deriving DecidableEq, Repr

structure ConfigInit where
  id : String
  name : String
  description : String
  permissions : List String
  first_page_id : String
deriving DecidableEq, Repr

structure ConfigRequestData where
  installed_app_id : String
  phase : ConfigPhase
  page_id : String
  previous_page_id : String
  config : List (String × List ConfigValue)
deriving DecidableEq, Repr

structure ConfigInitData where
  initialize_ : ConfigInit
deriving DecidableEq, Repr

structure EnumOption where
  id : String
  name : String
deriving DecidableEq, Repr

structure EnumOptionGroup where
  name : String
  options : List EnumOption
deriving DecidableEq, Repr

/-- The shared `AbstractSetting` fields (`required` has default `False`). -/
structure SettingBase where
  id : String
  name : String
  description : String
  required : Option Bool
deriving DecidableEq, Repr

/-- `ConfigSetting`, the 15-variant union of setting classes; each variant's
`type` discriminator is determined by the variant. -/
inductive ConfigSetting where
  | DeviceSetting (base : SettingBase) (multiple : Bool)
      (capabilities : List String) (permissions : List String)
  | TextSetting (base : SettingBase) (default_value : String)
  | BooleanSetting (base : SettingBase) (default_value : BooleanValue)
  | EnumSetting (base : SettingBase) (multiple : Bool)
      (options : Option (List EnumOption)) (grouped_options : Option (List EnumOptionGroup))
  | LinkSetting (base : SettingBase) (url : String) (image : String)
  | PageSetting (base : SettingBase) (page : String) (image : String)
  | ImageSetting (base : SettingBase) (image : String)
  | IconSetting (base : SettingBase) (image : String)
  | TimeSetting (base : SettingBase)
  | ParagraphSetting (base : SettingBase) (default_value : String)
  | EmailSetting (base : SettingBase)
  | DecimalSetting (base : SettingBase)
  | NumberSetting (base : SettingBase)
  | PhoneSetting (base : SettingBase)
  | OauthSetting (base : SettingBase) (browser : Bool) (url_template : String)
deriving DecidableEq, Repr

structure ConfigSection where
  name : String
  settings : List ConfigSetting
deriving DecidableEq, Repr

structure ConfigPage where
  page_id : String
  name : String
  previous_page_id : Option String
  next_page_id : Option String
  complete : Bool
  sections : List ConfigSection
deriving DecidableEq, Repr

structure ConfigPageData where
  page : ConfigPage
deriving DecidableEq, Repr

structure InstallData where
  auth_token : String
  refresh_token : String
  installed_app : InstalledApp
deriving DecidableEq, Repr

structure UpdateData where
  auth_token : String
  refresh_token : String
  installed_app : InstalledApp
  previous_config : Option (List (String × List ConfigValue))
  previous_permissions : List String
deriving DecidableEq, Repr

structure UninstallData where
  installed_app : InstalledApp
deriving DecidableEq, Repr

structure OauthCallbackData where
  installed_app_id : String
  url_path : String
deriving DecidableEq, Repr

structure EventData where
  auth_token : String
  installed_app : InstalledApp
  events : List Event
deriving DecidableEq, Repr

structure ConfirmationRequest where
  lifecycle : LifecyclePhase
  execution_id : String
  locale : String
  version : String
  app_id : String
  confirmation_data : ConfirmationData
  settings : List (String × Json)
deriving DecidableEq, Repr

structure ConfigurationRequest where
  lifecycle : LifecyclePhase
  execution_id : String
  locale : String
  version : String
  configuration_data : ConfigRequestData
  settings : List (String × Json)
deriving DecidableEq, Repr

structure InstallRequest where
  lifecycle : LifecyclePhase
  execution_id : String
  locale : String
  version : String
  install_data : InstallData
  settings : List (String × Json)
deriving DecidableEq, Repr

structure UpdateRequest where
  lifecycle : LifecyclePhase
  execution_id : String
  locale : String
  version : String
  update_data : UpdateData
  settings : List (String × Json)
deriving DecidableEq, Repr

structure UninstallRequest where
  lifecycle : LifecyclePhase
  execution_id : String
  locale : String
  version : String
  uninstall_data : UninstallData
  settings : List (String × Json)
deriving DecidableEq, Repr

/-- The OAUTH_CALLBACK request carries no `settings` field in the source. -/
structure OauthCallbackRequest where
  lifecycle : LifecyclePhase
  execution_id : String
  locale : String
  version : String
  o_auth_callback_data : OauthCallbackData
deriving DecidableEq, Repr

structure EventRequest where
  lifecycle : LifecyclePhase
  execution_id : String
  locale : String
  version : String
  event_data : EventData
  settings : List (String × Json)
deriving DecidableEq, Repr

/-- `LifecycleRequest`, the union of the seven request classes. -/
inductive LifecycleRequest where
  | confirmation (r : ConfirmationRequest)
  | configuration (r : ConfigurationRequest)
  | install (r : InstallRequest)
  | update (r : UpdateRequest)
  | uninstall (r : UninstallRequest)
  | oauthCallback (r : OauthCallbackRequest)
  | event (r : EventRequest)
deriving DecidableEq, Repr

structure ConfirmationResponse where
  target_url : String
deriving DecidableEq, Repr

structure ConfigurationInitResponse where
  configuration_data : ConfigInitData
deriving DecidableEq, Repr

structure ConfigurationPageResponse where
  configuration_data : ConfigPageData
deriving DecidableEq, Repr

structure InstallResponse where
  install_data : List (String × Json)
deriving DecidableEq, Repr

structure UpdateResponse where
  update_data : List (String × Json)
deriving DecidableEq, Repr

structure UninstallResponse where
  uninstall_data : List (String × Json)
deriving DecidableEq, Repr

structure OauthCallbackResponse where
  o_auth_callback_data : List (String × Json)
deriving DecidableEq, Repr

structure EventResponse where
  event_data : List (String × Json)
deriving DecidableEq, Repr

/-- `LifecycleResponse`, the union of the eight response classes. -/
inductive LifecycleResponse where
  | configurationInit (r : ConfigurationInitResponse)
  | configurationPage (r : ConfigurationPageResponse)
  | confirmation (r : ConfirmationResponse)
  | install (r : InstallResponse)
  | update (r : UpdateResponse)
  | uninstall (r : UninstallResponse)
  | oauthCallback (r : OauthCallbackResponse)
  | event (r : EventResponse)
deriving DecidableEq, Repr

/-! ### Serialization (`converter.py`, unstructure direction)

`StandardConverter` registers an unstructure factory hook that renames every
attrs field of every class to `_to_camel_case(field.name)`; `SmartAppConverter`
adds the `DateTime` hook (`serialize_datetime`).  The functions below are those
generated unstructure hooks, with the renamed keys written out literally; the
theorems for the naming invariant prove each literal key equal to
`toCamelCase` of the snake_case field name.  Enum members unstructure to their
`value`. -/

def unstructure_optStr : Option String → Json
  | none => Json.null
  | some s => Json.str s

def unstructure_optBool : Option Bool → Json
  | none => Json.null
  | some b => Json.bool b

def unstructure_strList (l : List String) : Json :=
  Json.arr (l.map Json.str)

def unstructure_anyDict (d : List (String × Json)) : Json :=
  Json.obj d

def unstructure_optAnyDict : Option (List (String × Json)) → Json
  | none => Json.null
  | some d => Json.obj d

def unstructure_optDateTime : Option PDateTime → Json
  | none => Json.null
  | some dt => Json.str (serialize_datetime dt)

def unstructure_DeviceValue (v : DeviceValue) : Json :=
  Json.obj [("deviceId", .str v.device_id), ("componentId", .str v.component_id)]

def unstructure_StringValue (v : StringValue) : Json :=
  Json.obj [("value", .str v.value)]

def unstructure_ConfigValue : ConfigValue → Json
  | .DeviceConfigValue device_config =>
      Json.obj [("deviceConfig", unstructure_DeviceValue device_config),
                ("valueType", .str "DEVICE")]
  | .StringConfigValue string_config =>
      Json.obj [("stringConfig", unstructure_StringValue string_config),
                ("valueType", .str "STRING")]

def unstructure_configEntry (kv : String × List ConfigValue) : String × Json :=
  (kv.1, Json.arr (kv.2.map unstructure_ConfigValue))

/-- `Dict[str, List[ConfigValue]]` unstructures pointwise. -/
def unstructure_configDict (d : List (String × List ConfigValue)) : Json :=
  Json.obj (d.map unstructure_configEntry)

def unstructure_optConfigDict : Option (List (String × List ConfigValue)) → Json
  | none => Json.null
  | some d => unstructure_configDict d

def unstructure_InstalledApp (app : InstalledApp) : Json :=
  Json.obj [("installedAppId", .str app.installed_app_id),
            ("locationId", .str app.location_id),
            ("config", unstructure_configDict app.config),
            ("permissions", unstructure_strList app.permissions)]

def unstructure_Event (e : Event) : Json :=
  Json.obj [("eventTime", unstructure_optDateTime e.event_time),
            ("eventType", .str e.event_type.value),
            ("deviceEvent", unstructure_optAnyDict e.device_event),
            ("deviceLifecycleEvent", unstructure_optAnyDict e.device_lifecycle_event),
            ("deviceHealthEvent", unstructure_optAnyDict e.device_health_event),
            ("deviceCommandsEvent", unstructure_optAnyDict e.device_commands_event),
            ("modeEvent", unstructure_optAnyDict e.mode_event),
            ("timerEvent", unstructure_optAnyDict e.timer_event),
            ("sceneLifecycleEvent", unstructure_optAnyDict e.scene_lifecycle_event),
            ("securityArmStateEvent", unstructure_optAnyDict e.security_arm_state_event),
            ("hubHealthEvent", unstructure_optAnyDict e.hub_health_event),
            ("installedAppLifecycleEvent", unstructure_optAnyDict e.installed_app_lifecycle_event),
            ("weatherEvent", unstructure_optAnyDict e.weather_event),
            ("weatherData", unstructure_optAnyDict e.weather_data),
            ("airQualityData", unstructure_optAnyDict e.air_quality_data)]

def unstructure_ConfirmationData (d : ConfirmationData) : Json :=
  Json.obj [("appId", .str d.app_id), ("confirmationUrl", .str d.confirmation_url)]

def unstructure_ConfigInit (c : ConfigInit) : Json :=
  Json.obj [("id", .str c.id), ("name", .str c.name), ("description", .str c.description),
            ("permissions", unstructure_strList c.permissions),
            ("firstPageId", .str c.first_page_id)]

def unstructure_ConfigRequestData (d : ConfigRequestData) : Json :=
  Json.obj [("installedAppId", .str d.installed_app_id),
            ("phase", .str d.phase.value),
            ("pageId", .str d.page_id),
            ("previousPageId", .str d.previous_page_id),
            ("config", unstructure_configDict d.config)]

def unstructure_ConfigInitData (d : ConfigInitData) : Json :=
  Json.obj [("initialize", unstructure_ConfigInit d.initialize_)]

def unstructure_EnumOption (o : EnumOption) : Json :=
  Json.obj [("id", .str o.id), ("name", .str o.name)]

def unstructure_EnumOptionGroup (g : EnumOptionGroup) : Json :=
  Json.obj [("name", .str g.name),
            ("options", Json.arr (g.options.map unstructure_EnumOption))]

def unstructure_optEnumOptions : Option (List EnumOption) → Json
  | none => Json.null
  | some l => Json.arr (l.map unstructure_EnumOption)

def unstructure_optEnumOptionGroups : Option (List EnumOptionGroup) → Json
  | none => Json.null
  | some l => Json.arr (l.map unstructure_EnumOptionGroup)

/-- The shared `AbstractSetting` fields rendered first, in declaration order. -/
def unstructure_SettingBase (b : SettingBase) : List (String × Json) :=
  [("id", .str b.id), ("name", .str b.name), ("description", .str b.description),
   ("required", unstructure_optBool b.required)]

def unstructure_ConfigSetting : ConfigSetting → Json
  | .DeviceSetting base multiple capabilities permissions =>
      Json.obj (unstructure_SettingBase base ++
        [("type", .str "DEVICE"), ("multiple", .bool multiple),
         ("capabilities", unstructure_strList capabilities),
         ("permissions", unstructure_strList permissions)])
  | .TextSetting base default_value =>
      Json.obj (unstructure_SettingBase base ++
        [("type", .str "TEXT"), ("defaultValue", .str default_value)])
  | .BooleanSetting base default_value =>
      Json.obj (unstructure_SettingBase base ++
        [("type", .str "BOOLEAN"), ("defaultValue", .str default_value.value)])
  | .EnumSetting base multiple options grouped_options =>
      Json.obj (unstructure_SettingBase base ++
        [("type", .str "ENUM"), ("multiple", .bool multiple),
         ("options", unstructure_optEnumOptions options),
         ("groupedOptions", unstructure_optEnumOptionGroups grouped_options)])
  | .LinkSetting base url image =>
      Json.obj (unstructure_SettingBase base ++
        [("type", .str "LINK"), ("url", .str url), ("image", .str image)])
  | .PageSetting base page image =>
      Json.obj (unstructure_SettingBase base ++
        [("type", .str "PAGE"), ("page", .str page), ("image", .str image)])
  | .ImageSetting base image =>
      Json.obj (unstructure_SettingBase base ++
        [("type", .str "IMAGE"), ("image", .str image)])
  | .IconSetting base image =>
      Json.obj (unstructure_SettingBase base ++
        [("type", .str "ICON"), ("image", .str image)])
  | .TimeSetting base =>
      Json.obj (unstructure_SettingBase base ++ [("type", .str "TIME")])
  | .ParagraphSetting base default_value =>
      Json.obj (unstructure_SettingBase base ++
        [("type", .str "PARAGRAPH"), ("defaultValue", .str default_value)])
  | .EmailSetting base =>
      Json.obj (unstructure_SettingBase base ++ [("type", .str "EMAIL")])
  | .DecimalSetting base =>
      Json.obj (unstructure_SettingBase base ++ [("type", .str "DECIMAL")])
  | .NumberSetting base =>
      Json.obj (unstructure_SettingBase base ++ [("type", .str "NUMBER")])
  | .PhoneSetting base =>
      Json.obj (unstructure_SettingBase base ++ [("type", .str "PHONE")])
  | .OauthSetting base browser url_template =>
      Json.obj (unstructure_SettingBase base ++
        [("type", .str "OAUTH"), ("browser", .bool browser),
         ("urlTemplate", .str url_template)])

def unstructure_ConfigSection (s : ConfigSection) : Json :=
  Json.obj [("name", .str s.name),
            ("settings", Json.arr (s.settings.map unstructure_ConfigSetting))]

def unstructure_ConfigPage (p : ConfigPage) : Json :=
  Json.obj [("pageId", .str p.page_id), ("name", .str p.name),
            ("previousPageId", unstructure_optStr p.previous_page_id),
            ("nextPageId", unstructure_optStr p.next_page_id),
            ("complete", .bool p.complete),
            ("sections", Json.arr (p.sections.map unstructure_ConfigSection))]

def unstructure_ConfigPageData (d : ConfigPageData) : Json :=
  Json.obj [("page", unstructure_ConfigPage d.page)]

def unstructure_InstallData (d : InstallData) : Json :=
  Json.obj [("authToken", .str d.auth_token),
            ("refreshToken", .str d.refresh_token),
            ("installedApp", unstructure_InstalledApp d.installed_app)]

def unstructure_UpdateData (d : UpdateData) : Json :=
  Json.obj [("authToken", .str d.auth_token),
            ("refreshToken", .str d.refresh_token),
            ("installedApp", unstructure_InstalledApp d.installed_app),
            ("previousConfig", unstructure_optConfigDict d.previous_config),
            ("previousPermissions", unstructure_strList d.previous_permissions)]

def unstructure_UninstallData (d : UninstallData) : Json :=
  Json.obj [("installedApp", unstructure_InstalledApp d.installed_app)]

def unstructure_OauthCallbackData (d : OauthCallbackData) : Json :=
  Json.obj [("installedAppId", .str d.installed_app_id), ("urlPath", .str d.url_path)]

def unstructure_EventData (d : EventData) : Json :=
  Json.obj [("authToken", .str d.auth_token),
            ("installedApp", unstructure_InstalledApp d.installed_app),
            ("events", Json.arr (d.events.map unstructure_Event))]

def unstructure_ConfirmationRequest (r : ConfirmationRequest) : Json :=
  Json.obj [("lifecycle", .str r.lifecycle.value),
            ("executionId", .str r.execution_id),
            ("locale", .str r.locale),
            ("version", .str r.version),
            ("appId", .str r.app_id),
            ("confirmationData", unstructure_ConfirmationData r.confirmation_data),
            ("settings", unstructure_anyDict r.settings)]

def unstructure_ConfigurationRequest (r : ConfigurationRequest) : Json :=
  Json.obj [("lifecycle", .str r.lifecycle.value),
            ("executionId", .str r.execution_id),
            ("locale", .str r.locale),
            ("version", .str r.version),
            ("configurationData", unstructure_ConfigRequestData r.configuration_data),
            ("settings", unstructure_anyDict r.settings)]

def unstructure_InstallRequest (r : InstallRequest) : Json :=
  Json.obj [("lifecycle", .str r.lifecycle.value),
            ("executionId", .str r.execution_id),
            ("locale", .str r.locale),
            ("version", .str r.version),
            ("installData", unstructure_InstallData r.install_data),
            ("settings", unstructure_anyDict r.settings)]

def unstructure_UpdateRequest (r : UpdateRequest) : Json :=
  Json.obj [("lifecycle", .str r.lifecycle.value),
            ("executionId", .str r.execution_id),
            ("locale", .str r.locale),
            ("version", .str r.version),
            ("updateData", unstructure_UpdateData r.update_data),
            ("settings", unstructure_anyDict r.settings)]

def unstructure_UninstallRequest (r : UninstallRequest) : Json :=
  Json.obj [("lifecycle", .str r.lifecycle.value),
            ("executionId", .str r.execution_id),
            ("locale", .str r.locale),
            ("version", .str r.version),
            ("uninstallData", unstructure_UninstallData r.uninstall_data),
            ("settings", unstructure_anyDict r.settings)]

def unstructure_OauthCallbackRequest (r : OauthCallbackRequest) : Json :=
  Json.obj [("lifecycle", .str r.lifecycle.value),
            ("executionId", .str r.execution_id),
            ("locale", .str r.locale),
            ("version", .str r.version),
            ("oAuthCallbackData", unstructure_OauthCallbackData r.o_auth_callback_data)]

def unstructure_EventRequest (r : EventRequest) : Json :=
  Json.obj [("lifecycle", .str r.lifecycle.value),
            ("executionId", .str r.execution_id),
            ("locale", .str r.locale),
            ("version", .str r.version),
            ("eventData", unstructure_EventData r.event_data),
            ("settings", unstructure_anyDict r.settings)]

def unstructure_LifecycleRequest : LifecycleRequest → Json
  | .confirmation r => unstructure_ConfirmationRequest r
  | .configuration r => unstructure_ConfigurationRequest r
  | .install r => unstructure_InstallRequest r
  | .update r => unstructure_UpdateRequest r
  | .uninstall r => unstructure_UninstallRequest r
  | .oauthCallback r => unstructure_OauthCallbackRequest r
  | .event r => unstructure_EventRequest r

def unstructure_ConfirmationResponse (r : ConfirmationResponse) : Json :=
  Json.obj [("targetUrl", .str r.target_url)]

def unstructure_ConfigurationInitResponse (r : ConfigurationInitResponse) : Json :=
  Json.obj [("configurationData", unstructure_ConfigInitData r.configuration_data)]

def unstructure_ConfigurationPageResponse (r : ConfigurationPageResponse) : Json :=
  Json.obj [("configurationData", unstructure_ConfigPageData r.configuration_data)]

def unstructure_InstallResponse (r : InstallResponse) : Json :=
  Json.obj [("installData", unstructure_anyDict r.install_data)]

def unstructure_UpdateResponse (r : UpdateResponse) : Json :=
  Json.obj [("updateData", unstructure_anyDict r.update_data)]

def unstructure_UninstallResponse (r : UninstallResponse) : Json :=
  Json.obj [("uninstallData", unstructure_anyDict r.uninstall_data)]

def unstructure_OauthCallbackResponse (r : OauthCallbackResponse) : Json :=
  Json.obj [("oAuthCallbackData", unstructure_anyDict r.o_auth_callback_data)]

def unstructure_EventResponse (r : EventResponse) : Json :=
  Json.obj [("eventData", unstructure_anyDict r.event_data)]

def unstructure_LifecycleResponse : LifecycleResponse → Json
  | .configurationInit r => unstructure_ConfigurationInitResponse r
  | .configurationPage r => unstructure_ConfigurationPageResponse r
  | .confirmation r => unstructure_ConfirmationResponse r
  | .install r => unstructure_InstallResponse r
  | .update r => unstructure_UpdateResponse r
  | .uninstall r => unstructure_UninstallResponse r
  | .oauthCallback r => unstructure_OauthCallbackResponse r
  | .event r => unstructure_EventResponse r

/-! ### Parsing (`converter.py`, structure direction)

The generated structure hooks read each renamed key from the input dict,
raising `KeyError` when a field without an attrs default is missing and using
the default otherwise; `Optional` fields accept `null`.  `SmartAppConverter`
registers polymorphic hooks that dispatch `ConfigValue`/`ConfigSetting`/
`LifecycleRequest` on their discriminator (`valueType`/`type`/`lifecycle`),
converting a missing or unknown discriminator into `ValueError`.  The wall
clock `now()` used by `deserialize_datetime` is the explicit `nowDt`
argument. -/

def Json.asObjFields : Json → Except PyError (List (String × Json))
  | j => match j.asObj? with
         | some fields => .ok fields
         | none => .error (.typeError "expected an object")

def Json.asArrItems : Json → Except PyError (List Json)
  | j => match j.asArr? with
         | some items => .ok items
         | none => .error (.typeError "expected an array")

def asStr : Json → Except PyError String
  | .str s => .ok s
  | _ => .error (.typeError "expected a string")

def asBool : Json → Except PyError Bool
  | .bool b => .ok b
  | _ => .error (.typeError "expected a bool")

/-- Read a required field: a missing key raises `KeyError`. -/
def lookupR (fields : List (String × Json)) (key : String)
    (f : Json → Except PyError α) : Except PyError α :=
  match jlookup fields key with
  | none => .error (.keyError key)
  | some v => f v

/-- Read a field that has an attrs default: a missing key yields the default. -/
def lookupD (fields : List (String × Json)) (key : String) (default : α)
    (f : Json → Except PyError α) : Except PyError α :=
  match jlookup fields key with
  | none => .ok default
  | some v => f v

/-- `Optional[T]` structuring: `null` becomes `None`, otherwise structure `T`. -/
def asOpt (f : Json → Except PyError α) : Json → Except PyError (Option α)
  | .null => .ok none
  | j => (f j).map some

def asStrList (j : Json) : Except PyError (List String) := do
  (← j.asArrItems).mapM asStr

def asAnyDict (j : Json) : Except PyError (List (String × Json)) :=
  j.asObjFields

def structure_DateTime (nowDt : PDateTime) (j : Json) : Except PyError PDateTime := do
  deserialize_datetime nowDt (← asStr j)

def structure_DeviceValue (j : Json) : Except PyError DeviceValue := do
  let o ← j.asObjFields
  let device_id ← lookupR o "deviceId" asStr
  let component_id ← lookupR o "componentId" asStr
  pure ⟨device_id, component_id⟩

def structure_StringValue (j : Json) : Except PyError StringValue := do
  let o ← j.asObjFields
  let value ← lookupR o "value" asStr
  pure ⟨value⟩

/-- `SmartAppConverter._structure_config_value`: dispatch on `valueType`;
`KeyError` (missing key or unknown member name) becomes
`ValueError("Unknown config value type")`. -/
def structure_ConfigValue (j : Json) : Except PyError ConfigValue := do
  let o ← j.asObjFields
  match jlookup o "valueType" with
  | some (.str s) =>
      match ConfigValueType.fromName? s with
      | some .DEVICE => do
          let device_config ← lookupR o "deviceConfig" structure_DeviceValue
          pure (.DeviceConfigValue device_config)
      | some .STRING => do
          let string_config ← lookupR o "stringConfig" structure_StringValue
          pure (.StringConfigValue string_config)
      | none => .error (.valueError "Unknown config value type")
  | some _ => .error (.valueError "Unknown config value type")
  | none => .error (.valueError "Unknown config value type")

def structure_configEntry (kv : String × Json) : Except PyError (String × List ConfigValue) := do
  pure (kv.1, ← (← kv.2.asArrItems).mapM structure_ConfigValue)

def structure_configDict (j : Json) : Except PyError (List (String × List ConfigValue)) := do
  (← j.asObjFields).mapM structure_configEntry

def structure_InstalledApp (j : Json) : Except PyError InstalledApp := do
  let o ← j.asObjFields
  let installed_app_id ← lookupR o "installedAppId" asStr
  let location_id ← lookupR o "locationId" asStr
  let config ← lookupR o "config" structure_configDict
  let permissions ← lookupD o "permissions" [] asStrList
  pure ⟨installed_app_id, location_id, config, permissions⟩

def structure_EventType (j : Json) : Except PyError EventType := do
  match EventType.fromValue? (← asStr j) with
  | some t => .ok t
  | none => .error (.valueError "invalid EventType value")

def structure_Event (nowDt : PDateTime) (j : Json) : Except PyError Event := do
  let o ← j.asObjFields
  let event_time ← lookupD o "eventTime" none (asOpt (structure_DateTime nowDt))
  let event_type ← lookupR o "eventType" structure_EventType
  let device_event ← lookupD o "deviceEvent" none (asOpt asAnyDict)
  let device_lifecycle_event ← lookupD o "deviceLifecycleEvent" none (asOpt asAnyDict)
  let device_health_event ← lookupD o "deviceHealthEvent" none (asOpt asAnyDict)
  let device_commands_event ← lookupD o "deviceCommandsEvent" none (asOpt asAnyDict)
  let mode_event ← lookupD o "modeEvent" none (asOpt asAnyDict)
  let timer_event ← lookupD o "timerEvent" none (asOpt asAnyDict)
  let scene_lifecycle_event ← lookupD o "sceneLifecycleEvent" none (asOpt asAnyDict)
  let security_arm_state_event ← lookupD o "securityArmStateEvent" none (asOpt asAnyDict)
  let hub_health_event ← lookupD o "hubHealthEvent" none (asOpt asAnyDict)
  let installed_app_lifecycle_event ←
    lookupD o "installedAppLifecycleEvent" none (asOpt asAnyDict)
  let weather_event ← lookupD o "weatherEvent" none (asOpt asAnyDict)
  let weather_data ← lookupD o "weatherData" none (asOpt asAnyDict)
  let air_quality_data ← lookupD o "airQualityData" none (asOpt asAnyDict)
  pure ⟨event_time, event_type, device_event, device_lifecycle_event, device_health_event,
        device_commands_event, mode_event, timer_event, scene_lifecycle_event,
        security_arm_state_event, hub_health_event, installed_app_lifecycle_event,
        weather_event, weather_data, air_quality_data⟩

def structure_ConfirmationData (j : Json) : Except PyError ConfirmationData := do
  let o ← j.asObjFields
  let app_id ← lookupR o "appId" asStr
  let confirmation_url ← lookupR o "confirmationUrl" asStr
  pure ⟨app_id, confirmation_url⟩

def structure_ConfigPhase (j : Json) : Except PyError ConfigPhase := do
  match ConfigPhase.fromValue? (← asStr j) with
  | some p => .ok p
  | none => .error (.valueError "invalid ConfigPhase value")

def structure_ConfigRequestData (j : Json) : Except PyError ConfigRequestData := do
  let o ← j.asObjFields
  let installed_app_id ← lookupR o "installedAppId" asStr
  let phase ← lookupR o "phase" structure_ConfigPhase
  let page_id ← lookupR o "pageId" asStr
  let previous_page_id ← lookupR o "previousPageId" asStr
  let config ← lookupR o "config" structure_configDict
  pure ⟨installed_app_id, phase, page_id, previous_page_id, config⟩

def structure_ConfigInit (j : Json) : Except PyError ConfigInit := do
  let o ← j.asObjFields
  let id ← lookupR o "id" asStr
  let name ← lookupR o "name" asStr
  let description ← lookupR o "description" asStr
  let permissions ← lookupR o "permissions" asStrList
  let first_page_id ← lookupR o "firstPageId" asStr
  pure ⟨id, name, description, permissions, first_page_id⟩

def structure_ConfigInitData (j : Json) : Except PyError ConfigInitData := do
  let o ← j.asObjFields
  let init ← lookupR o "initialize" structure_ConfigInit
  pure ⟨init⟩

def structure_EnumOption (j : Json) : Except PyError EnumOption := do
  let o ← j.asObjFields
  let id ← lookupR o "id" asStr
  let name ← lookupR o "name" asStr
  pure ⟨id, name⟩

def structure_optionList (j : Json) : Except PyError (List EnumOption) := do
  (← j.asArrItems).mapM structure_EnumOption

def structure_EnumOptionGroup (j : Json) : Except PyError EnumOptionGroup := do
  let o ← j.asObjFields
  let name ← lookupR o "name" asStr
  let options ← lookupR o "options" structure_optionList
  pure ⟨name, options⟩

def structure_groupList (j : Json) : Except PyError (List EnumOptionGroup) := do
  (← j.asArrItems).mapM structure_EnumOptionGroup

def structure_SettingBase (o : List (String × Json)) : Except PyError SettingBase := do
  let id ← lookupR o "id" asStr
  let name ← lookupR o "name" asStr
  let description ← lookupR o "description" asStr
  let required ← lookupD o "required" (some false) (asOpt asBool)
  pure ⟨id, name, description, required⟩

def structure_BooleanValue (j : Json) : Except PyError BooleanValue := do
  match BooleanValue.fromValue? (← asStr j) with
  | some b => .ok b
  | none => .error (.valueError "invalid BooleanValue value")

/-- `SmartAppConverter._structure_config_setting`: dispatch on `type`;
`KeyError` (missing key or unknown member name) becomes
`ValueError("Unknown config setting type")`. -/
def structure_ConfigSetting (j : Json) : Except PyError ConfigSetting := do
  let o ← j.asObjFields
  match jlookup o "type" with
  | some (.str s) =>
      match ConfigSettingType.fromName? s with
      | some .DEVICE => do
          let base ← structure_SettingBase o
          let multiple ← lookupR o "multiple" asBool
          let capabilities ← lookupR o "capabilities" asStrList
          let permissions ← lookupR o "permissions" asStrList
          pure (.DeviceSetting base multiple capabilities permissions)
      | some .TEXT => do
          let base ← structure_SettingBase o
          let default_value ← lookupR o "defaultValue" asStr
          pure (.TextSetting base default_value)
      | some .BOOLEAN => do
          let base ← structure_SettingBase o
          let default_value ← lookupR o "defaultValue" structure_BooleanValue
          pure (.BooleanSetting base default_value)
      | some .ENUM => do
          let base ← structure_SettingBase o
          let multiple ← lookupR o "multiple" asBool
          let options ← lookupD o "options" none (asOpt structure_optionList)
          let grouped_options ← lookupD o "groupedOptions" none (asOpt structure_groupList)
          pure (.EnumSetting base multiple options grouped_options)
      | some .LINK => do
          let base ← structure_SettingBase o
          let url ← lookupR o "url" asStr
          let image ← lookupR o "image" asStr
          pure (.LinkSetting base url image)
      | some .PAGE => do
          let base ← structure_SettingBase o
          let page ← lookupR o "page" asStr
          let image ← lookupR o "image" asStr
          pure (.PageSetting base page image)
      | some .IMAGE => do
          let base ← structure_SettingBase o
          let image ← lookupR o "image" asStr
          pure (.ImageSetting base image)
      | some .ICON => do
          let base ← structure_SettingBase o
          let image ← lookupR o "image" asStr
          pure (.IconSetting base image)
      | some .TIME => do
          pure (.TimeSetting (← structure_SettingBase o))
      | some .PARAGRAPH => do
          let base ← structure_SettingBase o
          let default_value ← lookupR o "defaultValue" asStr
          pure (.ParagraphSetting base default_value)
      | some .EMAIL => do
          pure (.EmailSetting (← structure_SettingBase o))
      | some .DECIMAL => do
          pure (.DecimalSetting (← structure_SettingBase o))
      | some .NUMBER => do
          pure (.NumberSetting (← structure_SettingBase o))
      | some .PHONE => do
          pure (.PhoneSetting (← structure_SettingBase o))
      | some .OAUTH => do
          let base ← structure_SettingBase o
          let browser ← lookupR o "browser" asBool
          let url_template ← lookupR o "urlTemplate" asStr
          pure (.OauthSetting base browser url_template)
      | none => .error (.valueError "Unknown config setting type")
  | some _ => .error (.valueError "Unknown config setting type")
  | none => .error (.valueError "Unknown config setting type")

def structure_settingList (j : Json) : Except PyError (List ConfigSetting) := do
  (← j.asArrItems).mapM structure_ConfigSetting

def structure_ConfigSection (j : Json) : Except PyError ConfigSection := do
  let o ← j.asObjFields
  let name ← lookupR o "name" asStr
  let settings ← lookupR o "settings" structure_settingList
  pure ⟨name, settings⟩

def structure_sectionList (j : Json) : Except PyError (List ConfigSection) := do
  (← j.asArrItems).mapM structure_ConfigSection

def structure_ConfigPage (j : Json) : Except PyError ConfigPage := do
  let o ← j.asObjFields
  let page_id ← lookupR o "pageId" asStr
  let name ← lookupR o "name" asStr
  let previous_page_id ← lookupR o "previousPageId" (asOpt asStr)
  let next_page_id ← lookupR o "nextPageId" (asOpt asStr)
  let complete ← lookupR o "complete" asBool
  let sections ← lookupR o "sections" structure_sectionList
  pure ⟨page_id, name, previous_page_id, next_page_id, complete, sections⟩

def structure_ConfigPageData (j : Json) : Except PyError ConfigPageData := do
  let o ← j.asObjFields
  let page ← lookupR o "page" structure_ConfigPage
  pure ⟨page⟩

def structure_InstallData (j : Json) : Except PyError InstallData := do
  let o ← j.asObjFields
  let auth_token ← lookupR o "authToken" asStr
  let refresh_token ← lookupR o "refreshToken" asStr
  let installed_app ← lookupR o "installedApp" structure_InstalledApp
  pure ⟨auth_token, refresh_token, installed_app⟩

def structure_UpdateData (j : Json) : Except PyError UpdateData := do
  let o ← j.asObjFields
  let auth_token ← lookupR o "authToken" asStr
  let refresh_token ← lookupR o "refreshToken" asStr
  let installed_app ← lookupR o "installedApp" structure_InstalledApp
  let previous_config ← lookupD o "previousConfig" none (asOpt structure_configDict)
  let previous_permissions ← lookupD o "previousPermissions" [] asStrList
  pure ⟨auth_token, refresh_token, installed_app, previous_config, previous_permissions⟩

def structure_UninstallData (j : Json) : Except PyError UninstallData := do
  let o ← j.asObjFields
  let installed_app ← lookupR o "installedApp" structure_InstalledApp
  pure ⟨installed_app⟩

def structure_OauthCallbackData (j : Json) : Except PyError OauthCallbackData := do
  let o ← j.asObjFields
  let installed_app_id ← lookupR o "installedAppId" asStr
  let url_path ← lookupR o "urlPath" asStr
  pure ⟨installed_app_id, url_path⟩

def structure_eventList (nowDt : PDateTime) (j : Json) : Except PyError (List Event) := do
  (← j.asArrItems).mapM (structure_Event nowDt)

def structure_EventData (nowDt : PDateTime) (j : Json) : Except PyError EventData := do
  let o ← j.asObjFields
  let auth_token ← lookupR o "authToken" asStr
  let installed_app ← lookupR o "installedApp" structure_InstalledApp
  let events ← lookupR o "events" (structure_eventList nowDt)
  pure ⟨auth_token, installed_app, events⟩

def structure_LifecyclePhase (j : Json) : Except PyError LifecyclePhase := do
  match LifecyclePhase.fromName? (← asStr j) with
  | some p => .ok p
  | none => .error (.valueError "invalid LifecyclePhase value")

def structure_ConfirmationRequest (j : Json) : Except PyError ConfirmationRequest := do
  let o ← j.asObjFields
  let lifecycle ← lookupR o "lifecycle" structure_LifecyclePhase
  let execution_id ← lookupR o "executionId" asStr
  let locale ← lookupR o "locale" asStr
  let version ← lookupR o "version" asStr
  let app_id ← lookupR o "appId" asStr
  let confirmation_data ← lookupR o "confirmationData" structure_ConfirmationData
  let settings ← lookupD o "settings" [] asAnyDict
  pure ⟨lifecycle, execution_id, locale, version, app_id, confirmation_data, settings⟩

def structure_ConfigurationRequest (j : Json) : Except PyError ConfigurationRequest := do
  let o ← j.asObjFields
  let lifecycle ← lookupR o "lifecycle" structure_LifecyclePhase
  let execution_id ← lookupR o "executionId" asStr
  let locale ← lookupR o "locale" asStr
  let version ← lookupR o "version" asStr
  let configuration_data ← lookupR o "configurationData" structure_ConfigRequestData
  let settings ← lookupD o "settings" [] asAnyDict
  pure ⟨lifecycle, execution_id, locale, version, configuration_data, settings⟩

def structure_InstallRequest (j : Json) : Except PyError InstallRequest := do
  let o ← j.asObjFields
  let lifecycle ← lookupR o "lifecycle" structure_LifecyclePhase
  let execution_id ← lookupR o "executionId" asStr
  let locale ← lookupR o "locale" asStr
  let version ← lookupR o "version" asStr
  let install_data ← lookupR o "installData" structure_InstallData
  let settings ← lookupD o "settings" [] asAnyDict
  pure ⟨lifecycle, execution_id, locale, version, install_data, settings⟩

def structure_UpdateRequest (j : Json) : Except PyError UpdateRequest := do
  let o ← j.asObjFields
  let lifecycle ← lookupR o "lifecycle" structure_LifecyclePhase
  let execution_id ← lookupR o "executionId" asStr
  let locale ← lookupR o "locale" asStr
  let version ← lookupR o "version" asStr
  let update_data ← lookupR o "updateData" structure_UpdateData
  let settings ← lookupD o "settings" [] asAnyDict
  pure ⟨lifecycle, execution_id, locale, version, update_data, settings⟩

def structure_UninstallRequest (j : Json) : Except PyError UninstallRequest := do
  let o ← j.asObjFields
  let lifecycle ← lookupR o "lifecycle" structure_LifecyclePhase
  let execution_id ← lookupR o "executionId" asStr
  let locale ← lookupR o "locale" asStr
  let version ← lookupR o "version" asStr
  let uninstall_data ← lookupR o "uninstallData" structure_UninstallData
  let settings ← lookupD o "settings" [] asAnyDict
  pure ⟨lifecycle, execution_id, locale, version, uninstall_data, settings⟩

def structure_OauthCallbackRequest (j : Json) : Except PyError OauthCallbackRequest := do
  let o ← j.asObjFields
  let lifecycle ← lookupR o "lifecycle" structure_LifecyclePhase
  let execution_id ← lookupR o "executionId" asStr
  let locale ← lookupR o "locale" asStr
  let version ← lookupR o "version" asStr
  let o_auth_callback_data ← lookupR o "oAuthCallbackData" structure_OauthCallbackData
  pure ⟨lifecycle, execution_id, locale, version, o_auth_callback_data⟩

def structure_EventRequest (nowDt : PDateTime) (j : Json) : Except PyError EventRequest := do
  let o ← j.asObjFields
  let lifecycle ← lookupR o "lifecycle" structure_LifecyclePhase
  let execution_id ← lookupR o "executionId" asStr
  let locale ← lookupR o "locale" asStr
  let version ← lookupR o "version" asStr
  let event_data ← lookupR o "eventData" (structure_EventData nowDt)
  let settings ← lookupD o "settings" [] asAnyDict
  pure ⟨lifecycle, execution_id, locale, version, event_data, settings⟩

/-- `SmartAppConverter._structure_request`: dispatch on the top-level
`lifecycle` member name; `KeyError` (missing key or unknown phase name, e.g.
`"BOGUS"`) becomes `ValueError("Unknown lifecycle phase")`. -/
def structure_LifecycleRequest (nowDt : PDateTime) (j : Json) : Except PyError LifecycleRequest := do
  let o ← j.asObjFields
  match jlookup o "lifecycle" with
  | some (.str s) =>
      match LifecyclePhase.fromName? s with
      | some .CONFIGURATION => (structure_ConfigurationRequest j).map .configuration
      | some .CONFIRMATION => (structure_ConfirmationRequest j).map .confirmation
      | some .INSTALL => (structure_InstallRequest j).map .install
      | some .UPDATE => (structure_UpdateRequest j).map .update
      | some .UNINSTALL => (structure_UninstallRequest j).map .uninstall
      | some .OAUTH_CALLBACK => (structure_OauthCallbackRequest j).map .oauthCallback
      | some .EVENT => (structure_EventRequest nowDt j).map .event
      | none => .error (.valueError "Unknown lifecycle phase")
  | some _ => .error (.valueError "Unknown lifecycle phase")
  | none => .error (.valueError "Unknown lifecycle phase")

def structure_ConfirmationResponse (j : Json) : Except PyError ConfirmationResponse := do
  let o ← j.asObjFields
  let target_url ← lookupR o "targetUrl" asStr
  pure ⟨target_url⟩

def structure_ConfigurationInitResponse (j : Json) : Except PyError ConfigurationInitResponse := do
  let o ← j.asObjFields
  let configuration_data ← lookupR o "configurationData" structure_ConfigInitData
  pure ⟨configuration_data⟩

def structure_ConfigurationPageResponse (j : Json) : Except PyError ConfigurationPageResponse := do
  let o ← j.asObjFields
  let configuration_data ← lookupR o "configurationData" structure_ConfigPageData
  pure ⟨configuration_data⟩

def structure_InstallResponse (j : Json) : Except PyError InstallResponse := do
  let o ← j.asObjFields
  let install_data ← lookupD o "installData" [] asAnyDict
  pure ⟨install_data⟩

def structure_UpdateResponse (j : Json) : Except PyError UpdateResponse := do
  let o ← j.asObjFields
  let update_data ← lookupD o "updateData" [] asAnyDict
  pure ⟨update_data⟩

def structure_UninstallResponse (j : Json) : Except PyError UninstallResponse := do
  let o ← j.asObjFields
  let uninstall_data ← lookupD o "uninstallData" [] asAnyDict
  pure ⟨uninstall_data⟩

def structure_OauthCallbackResponse (j : Json) : Except PyError OauthCallbackResponse := do
  let o ← j.asObjFields
  let o_auth_callback_data ← lookupD o "oAuthCallbackData" [] asAnyDict
  pure ⟨o_auth_callback_data⟩

def structure_EventResponse (j : Json) : Except PyError EventResponse := do
  let o ← j.asObjFields
  let event_data ← lookupD o "eventData" [] asAnyDict
  pure ⟨event_data⟩

/-! ### The JSON text codec (Python `json` standard library)

`StandardConverter.to_json` is `json.dumps(self.unstructure(obj), indent="  ")`
and `from_json` is `self.structure(json.loads(data), cls)`.  `dumps` below
reproduces the indented printer (ASCII escaping enabled, separators
`","`/`": "`); `loads` is a fuel-based recursive-descent reader for the JSON
fragment this protocol uses: numbers are integers, and lone surrogate escapes
are rejected. -/

def hexDigitChar (n : Nat) : Char :=
  if n < 10 then Nat.digitChar n else Char.ofNat (97 + n - 10)

def escapeChar (c : Char) : List Char :=
  if c = '"' then ['\\', '"']
  else if c = '\\' then ['\\', '\\']
  else if c = '\n' then ['\\', 'n']
  else if c = '\r' then ['\\', 'r']
  else if c = '\t' then ['\\', 't']
  else if c.toNat = 8 then ['\\', 'b']
  else if c.toNat = 12 then ['\\', 'f']
  else if c.toNat < 32 ∨ 126 < c.toNat then
    if c.toNat ≤ 65535 then
      ['\\', 'u', hexDigitChar (c.toNat / 4096 % 16), hexDigitChar (c.toNat / 256 % 16),
       hexDigitChar (c.toNat / 16 % 16), hexDigitChar (c.toNat % 16)]
    else
      let cp := c.toNat - 65536
      let hi := 55296 + cp / 1024
      let lo := 56320 + cp % 1024
      ['\\', 'u', hexDigitChar (hi / 4096 % 16), hexDigitChar (hi / 256 % 16),
       hexDigitChar (hi / 16 % 16), hexDigitChar (hi % 16),
       '\\', 'u', hexDigitChar (lo / 4096 % 16), hexDigitChar (lo / 256 % 16),
       hexDigitChar (lo / 16 % 16), hexDigitChar (lo % 16)]
  else [c]

/-- A JSON string literal as `json.dumps` renders it (`ensure_ascii` default). -/
def pyJsonStr (s : String) : String :=
  ⟨'"' :: s.data.foldr (fun c acc => escapeChar c ++ acc) ['"']⟩

def indentStr (level : Nat) : String :=
  String.join (List.replicate level "  ")

/-- Printer modes: a value in position, or the remaining elements of an open
array/object. -/
inductive DumpMode where
  | value | arrTail | objTail

def Json.dumpsAux : DumpMode → Nat → Json → String
  | .value, _, .null => "null"
  | .value, _, .bool b => if b then "true" else "false"
  | .value, _, .num n => toString n
  | .value, _, .str s => pyJsonStr s
  | .value, _, .arrNil => "[]"
  | .value, level, .arrCons h t =>
      "[\n" ++ indentStr (level + 1) ++ Json.dumpsAux .value (level + 1) h ++
      Json.dumpsAux .arrTail (level + 1) t ++ "\n" ++ indentStr level ++ "]"
  | .value, _, .objNil => "\x7b\x7d"
  | .value, level, .objCons k v t =>
      "\x7b\n" ++ indentStr (level + 1) ++ pyJsonStr k ++ ": " ++
      Json.dumpsAux .value (level + 1) v ++
      Json.dumpsAux .objTail (level + 1) t ++ "\n" ++ indentStr level ++ "\x7d"
  | .arrTail, _, .arrNil => ""
  | .arrTail, level, .arrCons h t =>
      ",\n" ++ indentStr level ++ Json.dumpsAux .value level h ++
      Json.dumpsAux .arrTail level t
  | .arrTail, _, _ => ""
  | .objTail, _, .objNil => ""
  | .objTail, level, .objCons k v t =>
      ",\n" ++ indentStr level ++ pyJsonStr k ++ ": " ++
      Json.dumpsAux .value level v ++ Json.dumpsAux .objTail level t
  | .objTail, _, _ => ""

/-- `json.dumps(obj, indent="  ")`. -/
def dumps (j : Json) : String :=
  Json.dumpsAux .value 0 j

def isJsonWs (c : Char) : Bool :=
  c = ' ' ∨ c = '\t' ∨ c = '\n' ∨ c = '\r'

def skipWs : List Char → List Char
  | [] => []
  | c :: rest => if isJsonWs c then skipWs rest else c :: rest

def hexVal? (c : Char) : Option Nat :=
  if '0' ≤ c ∧ c ≤ '9' then some (c.toNat - 48)
  else if 'a' ≤ c ∧ c ≤ 'f' then some (c.toNat - 87)
  else if 'A' ≤ c ∧ c ≤ 'F' then some (c.toNat - 55)
  else none

def hex4? (a b c d : Char) : Option Nat := do
  pure ((← hexVal? a) * 4096 + (← hexVal? b) * 256 + (← hexVal? c) * 16 + (← hexVal? d))

/-- Parse the remainder of a JSON string literal (after the opening quote). -/
def parseJStringAux : List Char → List Char → Except PyError (String × List Char)
  | acc, '"' :: rest => .ok (⟨acc.reverse⟩, rest)
  | acc, '\\' :: 'u' :: a :: b :: c :: d :: rest =>
      match hex4? a b c d with
      | none => .error (.valueError "Invalid \\uXXXX escape")
      | some n =>
          if 55296 ≤ n ∧ n ≤ 57343 then
            match rest with
            | '\\' :: 'u' :: a' :: b' :: c' :: d' :: rest' =>
                match hex4? a' b' c' d' with
                | some m =>
                    if 55296 ≤ n ∧ n ≤ 56319 ∧ 56320 ≤ m ∧ m ≤ 57343 then
                      parseJStringAux
                        (Char.ofNat (65536 + (n - 55296) * 1024 + (m - 56320)) :: acc) rest'
                    else .error (.valueError "Invalid \\uXXXX escape")
                | none => .error (.valueError "Invalid \\uXXXX escape")
            | _ => .error (.valueError "Invalid \\uXXXX escape")
          else parseJStringAux (Char.ofNat n :: acc) rest
  | acc, '\\' :: e :: rest =>
      if e = '"' then parseJStringAux ('"' :: acc) rest
      else if e = '\\' then parseJStringAux ('\\' :: acc) rest
      else if e = '/' then parseJStringAux ('/' :: acc) rest
      else if e = 'n' then parseJStringAux ('\n' :: acc) rest
      else if e = 'r' then parseJStringAux ('\r' :: acc) rest
      else if e = 't' then parseJStringAux ('\t' :: acc) rest
      else if e = 'b' then parseJStringAux (Char.ofNat 8 :: acc) rest
      else if e = 'f' then parseJStringAux (Char.ofNat 12 :: acc) rest
      else .error (.valueError "Invalid \\escape")
  | _, '\\' :: [] => .error (.valueError "Unterminated string")
  | acc, c :: rest =>
      if c.toNat < 32 then .error (.valueError "Invalid control character")
      else parseJStringAux (c :: acc) rest
  | _, [] => .error (.valueError "Unterminated string")

/-- Parse a JSON integer (this model rejects fractions and exponents, which the
lifecycle wire format never carries). -/
def parseJNum (cs : List Char) : Except PyError (Json × List Char) :=
  let (neg, cs') := match cs with
                    | '-' :: rest => (true, rest)
                    | _ => (false, cs)
  let digits := cs'.takeWhile Char.isDigit
  let rest := cs'.dropWhile Char.isDigit
  if digits.isEmpty then .error (.valueError "Expecting value")
  else if digits.length > 1 ∧ digits.headI = '0' then .error (.valueError "Expecting value")
  else
    let n : Nat := digits.foldl (fun acc c => acc * 10 + (c.toNat - 48)) 0
    match rest with
    | '.' :: _ => .error (.valueError "float literals are outside this model")
    | 'e' :: _ => .error (.valueError "float literals are outside this model")
    | 'E' :: _ => .error (.valueError "float literals are outside this model")
    | _ => .ok (.num (if neg then -(n : Int) else (n : Int)), rest)

/-- Reader modes: a value in position, or the remaining elements of an open
array/object (returning the tail-encoded rest of the container). -/
inductive ReadMode where
  | value | arrRest | objRest

/-- Expect `"key" :` and return the key with the rest of the input. -/
def parseJKey (cs : List Char) : Except PyError (String × List Char) :=
  match skipWs cs with
  | '"' :: rest => do
      let (key, rest') ← parseJStringAux [] rest
      match skipWs rest' with
      | ':' :: rest'' => .ok (key, rest'')
      | _ => .error (.valueError "Expecting colon")
  | _ => .error (.valueError "Expecting property name")

def parseJson : Nat → ReadMode → List Char → Except PyError (Json × List Char)
  | 0, _, _ => .error (.valueError "Expecting value")
  | fuel + 1, .value, cs =>
      match skipWs cs with
      | 'n' :: 'u' :: 'l' :: 'l' :: rest => .ok (.null, rest)
      | 't' :: 'r' :: 'u' :: 'e' :: rest => .ok (.bool true, rest)
      | 'f' :: 'a' :: 'l' :: 's' :: 'e' :: rest => .ok (.bool false, rest)
      | '"' :: rest => (parseJStringAux [] rest).map (fun sr => (.str sr.1, sr.2))
      | '[' :: rest =>
          (match skipWs rest with
           | ']' :: rest' => .ok (.arrNil, rest')
           | cs' => do
               let (v, r) ← parseJson fuel .value cs'
               let (tail, r') ← parseJson fuel .arrRest r
               .ok (.arrCons v tail, r'))
      | '{' :: rest =>
          (match skipWs rest with
           | '}' :: rest' => .ok (.objNil, rest')
           | cs' => do
               let (key, r0) ← parseJKey cs'
               let (v, r) ← parseJson fuel .value r0
               let (tail, r') ← parseJson fuel .objRest r
               .ok (.objCons key v tail, r'))
      | other => parseJNum other
  | fuel + 1, .arrRest, cs =>
      (match skipWs cs with
       | ']' :: rest => .ok (.arrNil, rest)
       | ',' :: rest => do
           let (v, r) ← parseJson fuel .value rest
           let (tail, r') ← parseJson fuel .arrRest r
           .ok (.arrCons v tail, r')
       | _ => .error (.valueError "Expecting comma"))
  | fuel + 1, .objRest, cs =>
      (match skipWs cs with
       | '}' :: rest => .ok (.objNil, rest)
       | ',' :: rest => do
           let (key, r0) ← parseJKey rest
           let (v, r) ← parseJson fuel .value r0
           let (tail, r') ← parseJson fuel .objRest r
           .ok (.objCons key v tail, r')
       | _ => .error (.valueError "Expecting comma"))

/-- `json.loads`. -/
def loads (data : String) : Except PyError Json := do
  let (v, rest) ← parseJson (data.length + 1) .value data.data
  match skipWs rest with
  | [] => .ok v
  | _ => .error (.valueError "Extra data")

/-- `CONVERTER.to_json(response)` for a lifecycle response. -/
def to_json (response : LifecycleResponse) : String :=
  dumps (unstructure_LifecycleResponse response)

/-- `CONVERTER.from_json(data, LifecycleRequest)`. -/
def from_json_LifecycleRequest (nowDt : PDateTime) (data : String) :
    Except PyError LifecycleRequest := do
  structure_LifecycleRequest nowDt (← loads data)

/-! ### The dispatcher (`dispatcher.py`)

`dispatcher.py` in this tree declares its own `SmartAppConfigPage`,
`SmartAppDefinition` and `SmartAppRequestContext` (the latter with a
`request_json` body and exact-key header lookup) and a `SmartAppDispatcher`
holding only `definition` and `event_handler` — it has no configuration
attribute and never invokes the signature verifier (`dispatch` carries a TODO
comment about signature checking).  `dispatch` wraps everything in a
catch-all `except Exception` that returns `(500, "")`.

The application event handler is an external collaborator: it is modelled as a
bundle of callbacks, each free to raise any exception. -/

structure SmartAppConfigPage where
  page_name : String
  sections : List ConfigSection
deriving DecidableEq, Repr

structure SmartAppDefinition where
  id : String
  name : String
  description : String
  target_url : String
  permissions : List String
  config_pages : List SmartAppConfigPage
deriving DecidableEq, Repr

/-- `dispatcher.SmartAppRequestContext`: headers plus the raw JSON body
(`request_json`). -/
structure DispatcherRequestContext where
  headers : List (String × String)
  request_json : String
deriving DecidableEq, Repr

/-- `self.headers[header] if header in self.headers else None` — an exact-key
dictionary lookup (the mapping itself is assumed case-insensitive by the
caller). -/
def DispatcherRequestContext.header (ctx : DispatcherRequestContext) (header : String) :
    Option String :=
  match ctx.headers.find? (fun kv => kv.1 = header) with
  | some kv => some kv.2
  | none => none

def DispatcherRequestContext.correlation_id (ctx : DispatcherRequestContext) : Option String :=
  ctx.header "x-st-correlation"

/-- The application's `SmartAppEventHandler` callbacks (external collaborator);
each may raise. -/
structure SmartAppEventHandler where
  handle_confirmation : Option String → ConfirmationRequest → Except PyError Unit
  handle_configuration : Option String → ConfigurationRequest → Except PyError Unit
  handle_install : Option String → InstallRequest → Except PyError Unit
  handle_update : Option String → UpdateRequest → Except PyError Unit
  handle_uninstall : Option String → UninstallRequest → Except PyError Unit
  handle_oauth_callback : Option String → OauthCallbackRequest → Except PyError Unit
  handle_event : Option String → EventRequest → Except PyError Unit

structure SmartAppDispatcher where
  definition : SmartAppDefinition
  event_handler : SmartAppEventHandler

/-- Python `int(s)`: optional surrounding whitespace, an optional sign, then a
non-empty run of decimal digits; anything else raises `ValueError`. -/
def pyInt (s : String) : Except PyError Int :=
  let t := pyStrip s
  let signAndDigits : Int × List Char :=
    match t.data with
    | '-' :: rest => (-1, rest)
    | '+' :: rest => (1, rest)
    | l => (1, l)
  let digits := signAndDigits.2
  if digits ≠ [] ∧ digits.all Char.isDigit then
    .ok (signAndDigits.1 * (digits.foldl (fun acc c => acc * 10 + (c.toNat - 48)) 0 : Nat))
  else
    .error (.valueError ("invalid literal for int() with base 10: " ++ s))

/-- Python list indexing `l[i]`: negative indices count from the end, anything
out of range raises `IndexError`. -/
def pyIndex (l : List α) (i : Int) : Except PyError α :=
  let j : Int := if i < 0 then i + l.length else i
  if h : 0 ≤ j ∧ j.toNat < l.length then
    .ok (l.get ⟨j.toNat, h.2⟩)
  else
    .error (.indexError "list index out of range")

/-- `SmartAppDispatcher._handle_config_request`. -/
def handle_config_request (definition : SmartAppDefinition) (request : ConfigurationRequest) :
    Except PyError LifecycleResponse :=
  if request.configuration_data.phase = ConfigPhase.INITIALIZE then
    .ok (.configurationInit ⟨⟨⟨definition.id, definition.name, definition.description,
      definition.permissions, "1"⟩⟩⟩)
  else do
    let page_id ← pyInt request.configuration_data.page_id
    let previous_page_id := if page_id = 1 then none else some (toString (page_id - 1))
    let next_page_id :=
      if page_id ≥ (definition.config_pages.length : Int) then none
      else some (toString (page_id + 1))
    let complete := decide (page_id ≥ (definition.config_pages.length : Int))
    let pages ← pyIndex definition.config_pages (page_id - 1)
    .ok (.configurationPage ⟨⟨⟨request.configuration_data.page_id, pages.page_name,
      previous_page_id, next_page_id, complete, pages.sections⟩⟩⟩)

/-- `SmartAppDispatcher._handle_request`: invoke the phase's handler callback,
then build the phase's response. -/
def handle_request (self : SmartAppDispatcher) (correlation_id : Option String)
    (request : LifecycleRequest) : Except PyError LifecycleResponse :=
  match request with
  | .confirmation r => do
      self.event_handler.handle_confirmation correlation_id r
      .ok (.confirmation ⟨self.definition.target_url⟩)
  | .configuration r => do
      self.event_handler.handle_configuration correlation_id r
      handle_config_request self.definition r
  | .install r => do
      self.event_handler.handle_install correlation_id r
      .ok (.install ⟨[]⟩)
  | .update r => do
      self.event_handler.handle_update correlation_id r
      .ok (.update ⟨[]⟩)
  | .uninstall r => do
      self.event_handler.handle_uninstall correlation_id r
      .ok (.uninstall ⟨[]⟩)
  | .oauthCallback r => do
      self.event_handler.handle_oauth_callback correlation_id r
      .ok (.oauthCallback ⟨[]⟩)
  | .event r => do
      self.event_handler.handle_event correlation_id r
      .ok (.event ⟨[]⟩)

/-- `SmartAppDispatcher.dispatch`: parse the body, handle the request, and
serialize the response with status 200; any exception whatsoever is caught and
turned into `(500, "")`. -/
def SmartAppDispatcher.dispatch (self : SmartAppDispatcher) (nowDt : PDateTime)
    (context : DispatcherRequestContext) : Int × String :=
  let attempt : Except PyError LifecycleResponse := do
    let request ← from_json_LifecycleRequest nowDt context.request_json
    handle_request self context.correlation_id request
  match attempt with
  | .ok response => (200, to_json response)
  | .error _ => (500, "")

/-! ### The signature verifier (`signature.py`, with `interface.py` context)

`signature.py` works against the `interface.py` request context (`body`,
case-insensitive normalized headers) and `SmartAppDispatcherConfig`.  The
verifier's derived attributes become functions of the context, config and
definition.  pendulum instants relevant to the date check are modelled as
microseconds on the UTC timeline; `pendulum.Duration.seconds` is, as in
`timedelta`, the seconds-within-a-day component of the (truncated) total. -/

/-- `SmartAppDispatcherConfig` with its source defaults. -/
structure SmartAppDispatcherConfig where
  check_signatures : Bool := true
  clock_skew_sec : Option Int := some 300
  keyserver_url : String := "https://key.smartthings.com"
  log_json : Bool := false
deriving DecidableEq, Repr

/-- `interface.SmartAppRequestContext`: headers and the request body. -/
structure SmartAppRequestContext where
  headers : List (String × String)
  body : String
deriving DecidableEq, Repr

/-- The `normalized` mapping `{key.lower(): value}`; a Python dict
comprehension keeps the last binding for duplicate lowered keys. -/
def SmartAppRequestContext.normalized (ctx : SmartAppRequestContext) : List (String × String) :=
  (ctx.headers.map (fun kv => (pyLower kv.1, kv.2))).reverse

/-- `SmartAppRequestContext.header`: case-insensitive lookup returning `None`
for a missing, empty or whitespace-only value. -/
def SmartAppRequestContext.header (ctx : SmartAppRequestContext) (name : String) :
    Option String :=
  match ctx.normalized.find? (fun kv => kv.1 = pyLower name) with
  | none => none
  | some kv => if pyStrip kv.2 = "" then none else some kv.2

def SmartAppRequestContext.correlation_id (ctx : SmartAppRequestContext) : Option String :=
  ctx.header "x-st-correlation"

/-- `SignatureVerifier.header`: like the context lookup but raising
`SignatureError("Header not found: ...")` when absent or empty. -/
def vheader (ctx : SmartAppRequestContext) (cid : Option String) (name : String) :
    Except PyError String :=
  match ctx.header name with
  | some value => .ok value
  | none => .error (.signatureError ("Header not found: " ++ name) cid)

/-- The path-with-query of `urllib.parse.urlsplit(target_url)`, as used for the
`(request-target)` pseudo-header. -/
def urlsplit_path_query (url : String) : String × String :=
  let noFrag := (pySplitOn url "#").headI
  let pathPart := (pySplitOn noFrag "?").headI
  let query := String.intercalate "?" ((pySplitOn noFrag "?").drop 1)
  match pySplitOn pathPart "://" with
  | _ :: rest0 :: rest =>
      let after := String.intercalate "://" (rest0 :: rest)
      (⟨after.data.dropWhile (· ≠ '/')⟩, query)
  | _ => (pathPart, query)

/-- `SignatureVerifier.path`: the path from the configured `target_url`,
keeping the query string when present. -/
def verifier_path (definition : SmartAppDefinition) : String :=
  let pq := urlsplit_path_query definition.target_url
  if pq.2 ≠ "" then pq.1 ++ "?" ++ pq.2 else pq.1

/-- `SignatureVerifier.request_target` (`method` is always POST). -/
def request_target (definition : SmartAppDefinition) : String :=
  "post " ++ verifier_path definition

/-- Scan for the regex `(name=")([^"]+?)(")`: among the occurrences of
`name="`, the first one followed by at least one non-quote character and a
closing quote yields that non-quote run. -/
def attrSearchAux : List String → Option String
  | [] => none
  | p :: rest =>
      let cand : String := ⟨p.data.takeWhile (· ≠ '"')⟩
      if 1 ≤ cand.length ∧ cand.length < p.length then some cand else attrSearchAux rest

def attrSearch (auth : String) (name : String) : Option String :=
  attrSearchAux ((pySplitOn auth (name ++ "=\"")).drop 1)

/-- The `attribute` helper inside `_default_signing_attributes`. -/
def signing_attribute (auth : String) (cid : Option String) (name : String)
    (default : Option String) : Except PyError String :=
  if ¬ pyStartsWith auth "Signature " then
    .error (.signatureError "Authorization header is not a signature" cid)
  else
    match attrSearch auth name with
    | some v => .ok v
    | none =>
        match default with
        | some d => .ok d
        | none => .error (.signatureError ("Signature does not contain: " ++ name) cid)

structure SigningAttributes where
  keyId : String
  headers : String
  algorithm : String
  signature : String
deriving DecidableEq, Repr

/-- `SignatureVerifier.signing_attributes`: `keyId`, `headers` (default
`"Date"`), `algorithm` and `signature`, in evaluation order. -/
def signing_attributes (auth : String) (cid : Option String) :
    Except PyError SigningAttributes := do
  let keyId ← signing_attribute auth cid "keyId" none
  let headers ← signing_attribute auth cid "headers" (some "Date")
  let algorithm ← signing_attribute auth cid "algorithm" none
  let signature ← signing_attribute auth cid "signature" none
  pure ⟨keyId, headers, algorithm, signature⟩

/-- `SignatureVerifier.signing_headers`: strip then split on single spaces. -/
def signing_headers_of (headersAttr : String) : List String :=
  pySplitOn (pyStrip headersAttr) " "

/-- `SignatureVerifier.algorithm`: anything but `rsa-sha256` is rejected. -/
def check_algorithm (algorithm : String) (cid : Option String) : Except PyError String :=
  if algorithm ≠ "rsa-sha256" then
    .error (.signatureError ("Algorithm not supported: " ++ algorithm) cid)
  else .ok algorithm

def rstripNewlines (s : String) : String :=
  ⟨(s.data.reverse.dropWhile (· = '\n')).reverse⟩

/-- The loop body of `_signing_string`: the component contributed by one name
of the `headers` attribute — `(request-target)` is the only special component,
every other name is looked up (case-insensitively) among the request headers
and must be present and non-empty. -/
def signing_component (ctx : SmartAppRequestContext) (cid : Option String)
    (definition : SmartAppDefinition) (name : String) : Except PyError String :=
  if name = "(request-target)" then
    .ok ("(request-target): " ++ request_target definition)
  else do
    pure (pyLower name ++ ": " ++ (← vheader ctx cid name))

/-- `SignatureVerifier._signing_string`: the signing components joined with a
newline, with trailing newlines stripped. -/
def signing_string (ctx : SmartAppRequestContext) (cid : Option String)
    (definition : SmartAppDefinition) (signing_headers : List String) :
    Except PyError String := do
  let components ← signing_headers.mapM (signing_component ctx cid definition)
  pure (rstripNewlines (String.intercalate "\n" components))

/-- `pendulum.Duration.seconds` of a duration of `totalUs` microseconds, after
`abs()`: the `timedelta`-style seconds-within-a-day component of the truncated
total. -/
def pendulumSeconds (totalUs : Int) : Nat :=
  totalUs.natAbs / 1000000 % 86400

/-- `SignatureVerifier.verify_date`: skip entirely when `clock_skew_sec` is
`None`; otherwise compute `skew = abs(now() - date)` and fail when
`skew.seconds` exceeds the configured value. -/
def verify_date (config : SmartAppDispatcherConfig) (cid : Option String)
    (nowUs dateUs : Int) : Except PyError Unit :=
  match config.clock_skew_sec with
  | none => .ok ()
  | some skew_sec =>
      let skew_seconds := pendulumSeconds (nowUs - dateUs)
      if (skew_seconds : Int) > skew_sec then
        .error (.signatureError
          ("Request date is not current, skew of " ++ toString skew_seconds ++ " seconds") cid)
      else .ok ()

/-! ### The public-key cache (`signature.py`, `retrieve_public_key`)

`retrieve_public_key` is an `lru_cache(maxsize=32)` over a tenacity-retried
HTTP GET: `stop_after_attempt(5)`,
`wait_exponential(multiplier=0.25, max=2)` and
`retry_if_exception_type((ConnectionError, HTTPError))`.  The network is an
oracle giving each attempt's outcome; `transient` stands for the two retryable
exception classes, `fatal` for every other exception.  Waits are in
milliseconds. -/

inductive FetchOutcome where
  | success (pem : String)
  | transient
  | fatal
deriving DecidableEq, Repr

/-- The LRU cache state plus a count of network calls actually issued. -/
structure KeyCacheState where
  cache : List ((String × String) × String)
  network_calls : Nat
deriving DecidableEq, Repr

/-- tenacity `wait_exponential(multiplier=0.25, max=2)`: the wait before retry
`k` (1-based) is `min(0.25 * 2^(k-1), 2)` seconds, i.e. milliseconds below. -/
def tenacityWaitMs (k : Nat) : Nat :=
  min (250 * 2 ^ (k - 1)) 2000

/-- The tenacity-driven attempt loop: `attemptIdx` is the 0-based attempt
number, `remaining` the attempts still allowed.  Returns the outcome, the
number of network calls issued, and the waits slept between attempts. -/
def retryFetchAux (oracle : Nat → FetchOutcome) (attemptIdx : Nat) :
    Nat → Except PyError String × Nat × List Nat
  | 0 => (.error (.exception "RetryError"), 0, [])
  | remaining + 1 =>
      match oracle attemptIdx with
      | .success pem => (.ok pem, 1, [])
      | .fatal => (.error (.exception "non-retryable exception"), 1, [])
      | .transient =>
          if remaining = 0 then
            (.error (.exception "ConnectionError/HTTPError"), 1, [])
          else
            let next := retryFetchAux oracle (attemptIdx + 1) remaining
            (next.1, next.2.1 + 1, tenacityWaitMs (attemptIdx + 1) :: next.2.2)

/-- The full retried fetch underneath the cache (`stop_after_attempt(5)`). -/
def retriedFetch (oracle : Nat → FetchOutcome) : Except PyError String × Nat × List Nat :=
  retryFetchAux oracle 0 5

def lruLookup (cache : List ((String × String) × String)) (key : String × String) :
    Option String :=
  match cache.find? (fun kv => kv.1 = key) with
  | some kv => some kv.2
  | none => none

/-- Insert at the most-recently-used position, evicting beyond 32 entries. -/
def lruInsert (cache : List ((String × String) × String)) (key : String × String)
    (pem : String) : List ((String × String) × String) :=
  ((key, pem) :: cache.filter (fun kv => kv.1 ≠ key)).take 32

/-- `retrieve_public_key` through the LRU cache: a hit returns the cached text
with no network call; a miss runs the retried fetch, caching only a success
(exceptions are never cached). -/
def retrieve_public_key (state : KeyCacheState) (oracle : Nat → FetchOutcome)
    (key_server_url : String) (key_id : String) :
    Except PyError String × KeyCacheState :=
  let key := (key_server_url, key_id)
  match lruLookup state.cache key with
  | some pem => (.ok pem, ⟨lruInsert state.cache key pem, state.network_calls⟩)
  | none =>
      let fetched := retriedFetch oracle
      match fetched.1 with
      | .ok pem => (.ok pem, ⟨lruInsert state.cache key pem, state.network_calls + fetched.2.1⟩)
      | .error e => (.error e, ⟨state.cache, state.network_calls + fetched.2.1⟩)

/-! ### attrs string rendering (`interface.py`, `repr` output)

attrs generates `ClassName(field=repr(value), ...)` over the fields in
declaration order, skipping every field declared with `field(repr=False)` —
in this code base exactly `auth_token` and `refresh_token` of
`InstallData`/`UpdateData` and `auth_token` of `EventData`.  String values
render single-quoted (quote-style switching for embedded quotes is not
modelled; it does not affect which fields are rendered). -/

def escapeReprChar (c : Char) : List Char :=
  if c = '\\' ∨ c = '\'' then ['\\', c] else [c]

def pyReprStr (s : String) : String :=
  ⟨'\'' :: s.data.foldr (fun c acc => escapeReprChar c ++ acc) ['\'']⟩

def reprJsonAux : DumpMode → Json → String
  | .value, .null => "None"
  | .value, .bool b => if b then "True" else "False"
  | .value, .num n => toString n
  | .value, .str s => pyReprStr s
  | .value, .arrNil => "[]"
  | .value, .arrCons h t => "[" ++ reprJsonAux .value h ++ reprJsonAux .arrTail t ++ "]"
  | .value, .objNil => "\x7b\x7d"
  | .value, .objCons k v t =>
      "\x7b" ++ pyReprStr k ++ ": " ++ reprJsonAux .value v ++ reprJsonAux .objTail t ++ "\x7d"
  | .arrTail, .arrNil => ""
  | .arrTail, .arrCons h t => ", " ++ reprJsonAux .value h ++ reprJsonAux .arrTail t
  | .arrTail, _ => ""
  | .objTail, .objNil => ""
  | .objTail, .objCons k v t =>
      ", " ++ pyReprStr k ++ ": " ++ reprJsonAux .value v ++ reprJsonAux .objTail t
  | .objTail, _ => ""

def reprJson (j : Json) : String :=
  reprJsonAux .value j

def reprAnyDict (d : List (String × Json)) : String :=
  reprJson (Json.obj d)

def reprOptAnyDict : Option (List (String × Json)) → String
  | none => "None"
  | some d => reprAnyDict d

def reprStrList (l : List String) : String :=
  "[" ++ String.intercalate ", " (l.map pyReprStr) ++ "]"

def reprDateTime (dt : PDateTime) : String :=
  "DateTime(" ++ toString dt.year ++ ", " ++ toString dt.month ++ ", " ++ toString dt.day ++
  ", " ++ toString dt.hour ++ ", " ++ toString dt.minute ++ ", " ++ toString dt.second ++
  (if dt.microsecond ≠ 0 then ", " ++ toString dt.microsecond else "") ++
  ", tzinfo=Timezone('UTC'))"

def reprOptDateTime : Option PDateTime → String
  | none => "None"
  | some dt => reprDateTime dt

def reprLifecyclePhase (p : LifecyclePhase) : String :=
  "<LifecyclePhase." ++ p.value ++ ": '" ++ p.value ++ "'>"

def reprEventType (t : EventType) : String :=
  "<EventType." ++ t.value ++ ": '" ++ t.value ++ "'>"

def reprConfigValue : ConfigValue → String
  | .DeviceConfigValue d =>
      "DeviceConfigValue(device_config=DeviceValue(device_id=" ++ pyReprStr d.device_id ++
      ", component_id=" ++ pyReprStr d.component_id ++
      "), value_type=<ConfigValueType.DEVICE: 'DEVICE'>)"
  | .StringConfigValue s =>
      "StringConfigValue(string_config=StringValue(value=" ++ pyReprStr s.value ++
      "), value_type=<ConfigValueType.STRING: 'STRING'>)"

def reprConfigDict (d : List (String × List ConfigValue)) : String :=
  "\x7b" ++ String.intercalate ", "
    (d.map (fun kv => pyReprStr kv.1 ++ ": [" ++
      String.intercalate ", " (kv.2.map reprConfigValue) ++ "]")) ++ "\x7d"

def reprOptConfigDict : Option (List (String × List ConfigValue)) → String
  | none => "None"
  | some d => reprConfigDict d

def reprInstalledApp (app : InstalledApp) : String :=
  "InstalledApp(installed_app_id=" ++ pyReprStr app.installed_app_id ++
  ", location_id=" ++ pyReprStr app.location_id ++
  ", config=" ++ reprConfigDict app.config ++
  ", permissions=" ++ reprStrList app.permissions ++ ")"

def reprEvent (e : Event) : String :=
  "Event(event_time=" ++ reprOptDateTime e.event_time ++
  ", event_type=" ++ reprEventType e.event_type ++
  ", device_event=" ++ reprOptAnyDict e.device_event ++
  ", device_lifecycle_event=" ++ reprOptAnyDict e.device_lifecycle_event ++
  ", device_health_event=" ++ reprOptAnyDict e.device_health_event ++
  ", device_commands_event=" ++ reprOptAnyDict e.device_commands_event ++
  ", mode_event=" ++ reprOptAnyDict e.mode_event ++
  ", timer_event=" ++ reprOptAnyDict e.timer_event ++
  ", scene_lifecycle_event=" ++ reprOptAnyDict e.scene_lifecycle_event ++
  ", security_arm_state_event=" ++ reprOptAnyDict e.security_arm_state_event ++
  ", hub_health_event=" ++ reprOptAnyDict e.hub_health_event ++
  ", installed_app_lifecycle_event=" ++ reprOptAnyDict e.installed_app_lifecycle_event ++
  ", weather_event=" ++ reprOptAnyDict e.weather_event ++
  ", weather_data=" ++ reprOptAnyDict e.weather_data ++
  ", air_quality_data=" ++ reprOptAnyDict e.air_quality_data ++ ")"

/-- `InstallData` repr: `auth_token` and `refresh_token` carry `repr=False`
and are omitted. -/
def reprInstallData (d : InstallData) : String :=
  "InstallData(installed_app=" ++ reprInstalledApp d.installed_app ++ ")"

/-- `UpdateData` repr: `auth_token` and `refresh_token` carry `repr=False`
and are omitted. -/
def reprUpdateData (d : UpdateData) : String :=
  "UpdateData(installed_app=" ++ reprInstalledApp d.installed_app ++
  ", previous_config=" ++ reprOptConfigDict d.previous_config ++
  ", previous_permissions=" ++ reprStrList d.previous_permissions ++ ")"

/-- `EventData` repr: `auth_token` carries `repr=False` and is omitted. -/
def reprEventData (d : EventData) : String :=
  "EventData(installed_app=" ++ reprInstalledApp d.installed_app ++
  ", events=[" ++ String.intercalate ", " (d.events.map reprEvent) ++ "])"

def reprInstallRequest (r : InstallRequest) : String :=
  "InstallRequest(lifecycle=" ++ reprLifecyclePhase r.lifecycle ++
  ", execution_id=" ++ pyReprStr r.execution_id ++
  ", locale=" ++ pyReprStr r.locale ++
  ", version=" ++ pyReprStr r.version ++
  ", install_data=" ++ reprInstallData r.install_data ++
  ", settings=" ++ reprAnyDict r.settings ++ ")"

def reprUpdateRequest (r : UpdateRequest) : String :=
  "UpdateRequest(lifecycle=" ++ reprLifecyclePhase r.lifecycle ++
  ", execution_id=" ++ pyReprStr r.execution_id ++
  ", locale=" ++ pyReprStr r.locale ++
  ", version=" ++ pyReprStr r.version ++
  ", update_data=" ++ reprUpdateData r.update_data ++
  ", settings=" ++ reprAnyDict r.settings ++ ")"

def reprEventRequest (r : EventRequest) : String :=
  "EventRequest(lifecycle=" ++ reprLifecyclePhase r.lifecycle ++
  ", execution_id=" ++ pyReprStr r.execution_id ++
  ", locale=" ++ pyReprStr r.locale ++
  ", version=" ++ pyReprStr r.version ++
  ", event_data=" ++ reprEventData r.event_data ++
  ", settings=" ++ reprAnyDict r.settings ++ ")"

/-! ## Shared helper lemmas -/

theorem asArr_arr (l : List Json) : Json.asArr? (Json.arr l) = some l := by
  induction l with
  | nil => rfl
  | cons h t ih => simp [Json.arr, Json.asArr?] at ih ⊢; simp [ih]

theorem asObj_obj (l : List (String × Json)) : Json.asObj? (Json.obj l) = some l := by
  induction l with
  | nil => rfl
  | cons h t ih => simp [Json.obj, Json.asObj?] at ih ⊢; simp [ih]

/-- Structuring an unstructured list element-by-element succeeds when every
element round-trips. -/
theorem mapM_map_rt {α β : Type} (f : α → β) (g : β → Except PyError α)
    (l : List α) (h : ∀ a ∈ l, g (f a) = .ok a) : (l.map f).mapM g = .ok l := by
  induction l with
  | nil => rfl
  | cons x xs ih =>
      simp only [List.map_cons, List.mapM_cons, h x (by simp)]
      rw [ih (fun a ha => h a (by simp [ha]))]
      rfl

/-! ## Example fixtures shared by several claims -/

def exampleDefinition : SmartAppDefinition :=
  ⟨"id", "name", "description", "https://example.com/smartapp", ["permission"],
   [⟨"First page", [⟨"Section 1", []⟩]⟩, ⟨"Second page", [⟨"Section 2", []⟩]⟩]⟩

def okHandler : SmartAppEventHandler :=
  ⟨fun _ _ => .ok (), fun _ _ => .ok (), fun _ _ => .ok (), fun _ _ => .ok (),
   fun _ _ => .ok (), fun _ _ => .ok (), fun _ _ => .ok ()⟩

def now2022 : PDateTime := ⟨2022, 6, 1, 2, 3, 4, 5000⟩

/-! ## C5 — clock-skew check -/

/-- C5: the claim states that with skew `s` configured the date check passes
iff the absolute now/Date difference is at most `s` seconds.  The code
computes the skew with pendulum's `Duration.seconds` — the seconds-within-a-day
component — so a request dated exactly one day (86400 s) before "now" passes a
300-second check; the claim's boundary behaviour (300 passes, 301 fails with
the measured skew, `None` accepts everything) does hold inside a single day.
This theorem evaluates the embedded `verify_date` at these inputs. -/
theorem C5_verify_date_day_wraparound :
    verify_date { clock_skew_sec := some 300 } none (86400 * 1000000) 0 = .ok () ∧
    verify_date { clock_skew_sec := some 300 } none (300 * 1000000) 0 = .ok () ∧
    verify_date { clock_skew_sec := some 300 } none (0 - 300 * 1000000) 0 = .ok () ∧
    verify_date { clock_skew_sec := some 300 } none (301 * 1000000) 0 =
      .error (.signatureError "Request date is not current, skew of 301 seconds" none) ∧
    verify_date { clock_skew_sec := none } none (86400000 * 1000000) 0 = .ok () := by
  refine ⟨by decide, by decide, by decide, ?_, by decide⟩
  decide

/-! ## C3 — the `digest` signing-string line -/

/-- C3 counterexample: with signing headers `["digest"]` and an inbound
`Digest` header of `bogus-digest`, the code emits `digest: bogus-digest` —
copied from the header, with no `SHA-256=`-prefixed digest computed from the
body. -/
theorem C3_digest_counterexample :
    signing_string ⟨[("Digest", "bogus-digest")], "\x7b\"hello\": \"world\"\x7d"⟩ none
      ⟨"", "", "", "https://example.com/foo?param=value&pet=dog", [], []⟩ ["digest"] =
      .ok "digest: bogus-digest" ∧
    ∀ d : String, "digest: bogus-digest" ≠ "digest: SHA-256=" ++ d := by
  constructor
  · decide
  · intro d h
    have h2 : ("digest: bogus-digest".data).take 16 =
        ("digest: SHA-256=".data ++ d.data).take 16 := by
      rw [show ("digest: SHA-256=".data ++ d.data) = ("digest: SHA-256=" ++ d).data from rfl,
          ← h]
    rw [List.take_append_eq_append_take] at h2
    have hlen : ("digest: SHA-256=".data).length = 16 := by decide
    rw [hlen, Nat.sub_self, List.take_zero, List.append_nil] at h2
    exact absurd h2 (by decide)

/-- C3 amended: when `digest` appears among the signing headers it is treated
exactly like any ordinary header — its line is `digest: ` followed by the
inbound `Digest` header value (case-insensitive lookup), and a missing or
empty `Digest` header raises `SignatureError("Header not found: digest")`; the
line is not computed from the request body. -/
theorem C3_digest_line_is_header_copy (ctx : SmartAppRequestContext) (cid : Option String)
    (definition : SmartAppDefinition) :
    (∀ v, ctx.header "digest" = some v →
        signing_component ctx cid definition "digest" = .ok ("digest: " ++ v)) ∧
    (ctx.header "digest" = none →
        signing_component ctx cid definition "digest" =
          .error (.signatureError "Header not found: digest" cid)) := by
  have hlow : pyLower "digest" = "digest" := by decide
  constructor
  · intro v hv
    simp only [signing_component, vheader, hv, hlow]
    rw [if_neg (by decide : ¬ ("digest" : String) = "(request-target)")]
    show Except.ok ("digest" ++ ": " ++ v) = Except.ok ("digest: " ++ v)
    rw [show ("digest" ++ ": " : String) = "digest: " from by decide]
  · intro hv
    simp only [signing_component, vheader, hv]
    rw [if_neg (by decide : ¬ ("digest" : String) = "(request-target)")]
    rfl

/-- C3 witness: the amended statement applied to a concrete context with a
`Digest` header, and to one without. -/
theorem C3_digest_witness :
    signing_component ⟨[("Digest", "SHA-256=X48E"), ("Date", "d")], "body"⟩ none
      exampleDefinition "digest" = .ok ("digest: " ++ "SHA-256=X48E") ∧
    signing_component ⟨[("Date", "d")], "body"⟩ none exampleDefinition "digest" =
      .error (.signatureError "Header not found: digest" none) :=
  ⟨(C3_digest_line_is_header_copy ⟨[("Digest", "SHA-256=X48E"), ("Date", "d")], "body"⟩
      none exampleDefinition).1 "SHA-256=X48E" (by decide),
   (C3_digest_line_is_header_copy ⟨[("Date", "d")], "body"⟩ none exampleDefinition).2
      (by decide)⟩

/-! ## C6 — CONFIGURATION/PAGE pagination -/

/-- C6: for a PAGE request whose `page_id` parses to `p` with `1 ≤ p ≤ n`
(`n` the number of configured pages), the response carries
`previous_page_id = None iff p = 1` (else `str(p-1)`),
`next_page_id = None iff p ≥ n` (else `str(p+1)`), `complete = (p ≥ n)`, and
the name/sections of `definition.config_pages[p-1]`. -/
theorem C6_config_page_pagination (definition : SmartAppDefinition)
    (request : ConfigurationRequest) (p : Int)
    (hphase : request.configuration_data.phase = ConfigPhase.PAGE)
    (hparse : pyInt request.configuration_data.page_id = .ok p)
    (h1 : 1 ≤ p) (hn : p ≤ (definition.config_pages.length : Int)) :
    ∃ page, definition.config_pages.get? (p - 1).toNat = some page ∧
      handle_config_request definition request = .ok (.configurationPage ⟨⟨⟨
        request.configuration_data.page_id, page.page_name,
        (if p = 1 then none else some (toString (p - 1))),
        (if p ≥ (definition.config_pages.length : Int) then none
         else some (toString (p + 1))),
        decide (p ≥ (definition.config_pages.length : Int)),
        page.sections⟩⟩⟩) := by
  have hlt : (p - 1).toNat < definition.config_pages.length := by omega
  refine ⟨definition.config_pages.get ⟨(p - 1).toNat, hlt⟩, List.get?_eq_get hlt, ?_⟩
  have hnot : ¬ request.configuration_data.phase = ConfigPhase.INITIALIZE := by
    rw [hphase]; intro hx; cases hx
  have hj : (if p - 1 < 0 then p - 1 + (definition.config_pages.length : Int) else p - 1) =
      p - 1 := if_neg (by omega)
  have hidx : pyIndex definition.config_pages (p - 1) =
      .ok (definition.config_pages.get ⟨(p - 1).toNat, hlt⟩) := by
    simp only [pyIndex, hj]
    rw [dif_pos ⟨by omega, hlt⟩]
  unfold handle_config_request
  rw [if_neg hnot]
  simp only [hparse, hidx, Bind.bind, Except.bind]

/-- C6 witness: a two-page definition, PAGE request with `page_id = "1"`. -/
theorem C6_config_page_witness :
    ∃ page, exampleDefinition.config_pages.get? ((1 : Int) - 1).toNat = some page ∧
      handle_config_request exampleDefinition
        ⟨.CONFIGURATION, "e", "en", "1", ⟨"ia", .PAGE, "1", "", []⟩, []⟩ =
        .ok (.configurationPage ⟨⟨⟨"1", page.page_name,
          (if (1 : Int) = 1 then none else some (toString ((1 : Int) - 1))),
          (if (1 : Int) ≥ (exampleDefinition.config_pages.length : Int) then none
           else some (toString ((1 : Int) + 1))),
          decide ((1 : Int) ≥ (exampleDefinition.config_pages.length : Int)),
          page.sections⟩⟩⟩) :=
  C6_config_page_pagination exampleDefinition
    ⟨.CONFIGURATION, "e", "en", "1", ⟨"ia", .PAGE, "1", "", []⟩, []⟩ 1
    rfl (by decide) (by decide) (by decide)

/-! ## C9 — public-key cache policy -/

theorem lruLookup_insert (c : List ((String × String) × String)) (k : String × String)
    (pem : String) : lruLookup (lruInsert c k pem) k = some pem := by
  simp [lruInsert, lruLookup, List.take_succ_cons, List.find?]

theorem retryFetchAux_le (oracle : Nat → FetchOutcome) :
    ∀ r a, (retryFetchAux oracle a r).2.1 ≤ r := by
  intro r
  induction r with
  | zero => intro a; simp [retryFetchAux]
  | succ n ih =>
      intro a
      simp only [retryFetchAux]
      cases oracle a with
      | success pem => simp
      | fatal => simp
      | transient =>
          by_cases hn : n = 0
          · subst hn; simp
          · rw [if_neg hn]
            show (retryFetchAux oracle (a + 1) n).2.1 + 1 ≤ n + 1
            have := ih (a + 1)
            omega

theorem retryFetchAux_waits (oracle : Nat → FetchOutcome) :
    ∀ r a, ∀ w ∈ (retryFetchAux oracle a r).2.2, ∃ k, 1 ≤ k ∧ w = tenacityWaitMs k := by
  intro r
  induction r with
  | zero => intro a w hw; simp [retryFetchAux] at hw
  | succ n ih =>
      intro a w hw
      simp only [retryFetchAux] at hw
      cases h : oracle a with
      | success pem => rw [h] at hw; simp at hw
      | fatal => rw [h] at hw; simp at hw
      | transient =>
          rw [h] at hw
          by_cases hn : n = 0
          · subst hn; simp at hw
          · rw [if_neg hn] at hw
            have hw' : w ∈ tenacityWaitMs (a + 1) :: (retryFetchAux oracle (a + 1) n).2.2 := hw
            rcases List.mem_cons.mp hw' with hm | hm
            · exact ⟨a + 1, by omega, hm⟩
            · exact ih (a + 1) w hm

/-- C9: the public-key cache stores only successful fetch results.  A cache
hit returns the cached PEM with no network call; a miss whose first attempt
succeeds issues exactly one call and caches the result, so that an immediately
following fetch for the same pair is served from the cache with no further
call; a failed fetch leaves the cache unchanged; a non-retryable error
short-circuits after exactly one call; the retried fetch makes at most 5
attempts, every wait between attempts is the tenacity exponential
`min(0.25 * 2^(k-1), 2)` seconds (milliseconds here, hence ≤ 2000), and a
fully transient run makes exactly 5 attempts with waits 250, 500, 1000,
2000 ms. -/
theorem C9_key_cache_policy (state : KeyCacheState) (oracle : Nat → FetchOutcome)
    (url kid pem : String) :
    (lruLookup state.cache (url, kid) = some pem →
      retrieve_public_key state oracle url kid =
        (.ok pem, ⟨lruInsert state.cache (url, kid) pem, state.network_calls⟩)) ∧
    (lruLookup state.cache (url, kid) = none → oracle 0 = .success pem →
      retrieve_public_key state oracle url kid =
        (.ok pem, ⟨lruInsert state.cache (url, kid) pem, state.network_calls + 1⟩) ∧
      (∀ oracle2 : Nat → FetchOutcome,
        retrieve_public_key (retrieve_public_key state oracle url kid).2 oracle2 url kid =
          (.ok pem, ⟨lruInsert (retrieve_public_key state oracle url kid).2.cache (url, kid) pem,
            state.network_calls + 1⟩))) ∧
    (∀ e, (retrieve_public_key state oracle url kid).1 = .error e →
      (retrieve_public_key state oracle url kid).2.cache = state.cache) ∧
    (lruLookup state.cache (url, kid) = none → oracle 0 = .fatal →
      retrieve_public_key state oracle url kid =
        (.error (.exception "non-retryable exception"), ⟨state.cache, state.network_calls + 1⟩)) ∧
    ((retriedFetch oracle).2.1 ≤ 5 ∧
      (∀ w ∈ (retriedFetch oracle).2.2, (∃ k, 1 ≤ k ∧ w = tenacityWaitMs k) ∧ w ≤ 2000) ∧
      retriedFetch (fun _ => .transient) =
        (.error (.exception "ConnectionError/HTTPError"), 5, [250, 500, 1000, 2000])) := by
  refine ⟨?_, ?_, ?_, ?_, ?_, ?_, ?_⟩
  · intro hhit
    simp [retrieve_public_key, hhit]
  · intro hmiss hsucc
    have hfirst : retrieve_public_key state oracle url kid =
        (.ok pem, ⟨lruInsert state.cache (url, kid) pem, state.network_calls + 1⟩) := by
      simp [retrieve_public_key, hmiss, retriedFetch, retryFetchAux, hsucc]
    refine ⟨hfirst, ?_⟩
    intro oracle2
    rw [hfirst]
    simp [retrieve_public_key, lruLookup_insert]
  · intro e herr
    simp only [retrieve_public_key] at herr ⊢
    cases hhit : lruLookup state.cache (url, kid) with
    | some v => rw [hhit] at herr; simp at herr
    | none =>
        cases hres : (retriedFetch oracle).1 with
        | ok v => rw [hhit, hres] at herr; simp at herr
        | error e' => rfl
  · intro hmiss hfatal
    simp [retrieve_public_key, hmiss, retriedFetch, retryFetchAux, hfatal]
  · exact retryFetchAux_le oracle 5 0
  · intro w hw
    obtain ⟨k, hk, hwk⟩ := retryFetchAux_waits oracle 5 0 w hw
    exact ⟨⟨k, hk, hwk⟩, by rw [hwk]; exact Nat.min_le_right _ _⟩
  · decide

/-- C9 witness: a successful fetch into an empty cache, then a second fetch
served from the cache with no additional network call. -/
theorem C9_key_cache_witness :
    retrieve_public_key ⟨[], 0⟩ (fun _ => .success "PEM") "https://key.smartthings.com" "Test" =
      (.ok "PEM", ⟨lruInsert [] ("https://key.smartthings.com", "Test") "PEM", 0 + 1⟩) ∧
    retrieve_public_key
        (retrieve_public_key ⟨[], 0⟩ (fun _ => .success "PEM")
          "https://key.smartthings.com" "Test").2
        (fun _ => .fatal) "https://key.smartthings.com" "Test" =
      (.ok "PEM", ⟨lruInsert
        (retrieve_public_key ⟨[], 0⟩ (fun _ => .success "PEM")
          "https://key.smartthings.com" "Test").2.cache
        ("https://key.smartthings.com", "Test") "PEM", 0 + 1⟩) := by
  have h := (C9_key_cache_policy ⟨[], 0⟩ (fun _ => .success "PEM")
    "https://key.smartthings.com" "Test" "PEM").2.1 (by decide) (by decide)
  exact ⟨h.1, h.2 (fun _ => .fatal)⟩

/-! ## C10 — dispatch status dichotomy -/

/-- C10: `dispatch` never lets an exception escape: it returns exactly
`(200, serialized response)` when parsing and handling succeed, and
`(500, "")` when any exception is raised during parsing or handling; no other
status and no typed error value is produced by `dispatch` itself. -/
theorem C10_dispatch_status_dichotomy (self : SmartAppDispatcher) (nowDt : PDateTime)
    (context : DispatcherRequestContext) :
    (∃ request response,
        from_json_LifecycleRequest nowDt context.request_json = .ok request ∧
        handle_request self context.correlation_id request = .ok response ∧
        self.dispatch nowDt context = (200, to_json response)) ∨
    (self.dispatch nowDt context = (500, "") ∧
      (∃ e : PyError,
        from_json_LifecycleRequest nowDt context.request_json = .error e ∨
        ∃ request, from_json_LifecycleRequest nowDt context.request_json = .ok request ∧
          handle_request self context.correlation_id request = .error e)) := by
  unfold SmartAppDispatcher.dispatch
  cases hp : from_json_LifecycleRequest nowDt context.request_json with
  | error e =>
      right
      refine ⟨by simp [hp, Bind.bind, Except.bind], e, .inl rfl⟩
  | ok request =>
      cases hh : handle_request self context.correlation_id request with
      | error e =>
          right
          refine ⟨by simp [hp, hh, Bind.bind, Except.bind], e, .inr ⟨request, rfl, hh⟩⟩
      | ok response =>
          left
          exact ⟨request, response, rfl, hh, by simp [hp, hh, Bind.bind, Except.bind]⟩

/-! ## C1 and C2 — what `dispatch` actually does with signatures and errors -/

def confirmationBody : String :=
  "\x7b\"lifecycle\": \"CONFIRMATION\", \"executionId\": \"e1\", \"locale\": \"en\", " ++
  "\"version\": \"1.0\", \"appId\": \"app\", \"confirmationData\": " ++
  "\x7b\"appId\": \"app\", \"confirmationUrl\": \"https://example.com/confirm\"\x7d, " ++
  "\"settings\": \x7b\x7d\x7d"

def sigErrHandler : SmartAppEventHandler :=
  { okHandler with
    handle_confirmation := fun cid _ => .error (.signatureError "Signature is not valid" cid) }

def boomHandler : SmartAppEventHandler :=
  { okHandler with handle_confirmation := fun _ _ => .error (.exception "Hello") }

set_option maxRecDepth 8000 in
/-- C1: the claim says an enabled-signature dispatcher runs `SignatureVerifier`
before parsing and propagates its `SignatureError` untouched.  The
`SmartAppDispatcher` in `dispatcher.py` has no configuration attribute and no
verifier call at all (only a TODO comment): a request with no `Authorization`
header whatsoever is accepted with status 200, and even a `SignatureError`
raised during handling is swallowed by the catch-all and turned into
`(500, "")` rather than propagated. -/
theorem C1_dispatch_never_invokes_verifier :
    SmartAppDispatcher.dispatch ⟨exampleDefinition, okHandler⟩ now2022
      ⟨[("x-st-correlation", "AAAA")], confirmationBody⟩ =
      (200, to_json (.confirmation ⟨"https://example.com/smartapp"⟩)) ∧
    SmartAppDispatcher.dispatch ⟨exampleDefinition, sigErrHandler⟩ now2022
      ⟨[("authorization", "Signature keyId=\"Test\",algorithm=\"rsa-sha256\",signature=\"xxx\""),
        ("x-st-correlation", "AAAA")], confirmationBody⟩ = (500, "") := by
  constructor
  · decide
  · decide

set_option maxRecDepth 8000 in
/-- C2: the claim says parse failures become `BadRequestError` and other
exceptions become `InternalError`, both carrying the correlation id.  The
dispatcher's catch-all instead maps *every* exception — malformed JSON, an
unknown `lifecycle` value, or a handler exception — to a plain `(500, "")`
tuple; the typed `BadRequestError`/`InternalError` classes of `interface.py`
are never raised by `dispatch`. -/
theorem C2_parse_errors_swallowed_to_500 :
    SmartAppDispatcher.dispatch ⟨exampleDefinition, okHandler⟩ now2022
      ⟨[("x-st-correlation", "AAAA")], "bogus"⟩ = (500, "") ∧
    from_json_LifecycleRequest now2022 "\x7b\"lifecycle\": \"BOGUS\"\x7d" =
      .error (.valueError "Unknown lifecycle phase") ∧
    SmartAppDispatcher.dispatch ⟨exampleDefinition, okHandler⟩ now2022
      ⟨[("x-st-correlation", "AAAA")], "\x7b\"lifecycle\": \"BOGUS\"\x7d"⟩ = (500, "") ∧
    SmartAppDispatcher.dispatch ⟨exampleDefinition, boomHandler⟩ now2022
      ⟨[("x-st-correlation", "AAAA")], confirmationBody⟩ = (500, "") := by
  refine ⟨by decide, by decide, by decide, by decide⟩

/-! ## C8 — secret redaction -/

/-- C8: for `InstallRequest`/`UpdateRequest`/`EventRequest`, the attrs string
rendering is independent of the `auth_token`/`refresh_token` secret values
(two objects differing only in those fields render identically), while the
JSON unstructuring of the same objects differs whenever the secrets differ —
the wire payload does carry them. -/
theorem C8_secret_redaction :
    (∀ (r : InstallRequest) (a t : String),
      reprInstallRequest
        { r with install_data := { r.install_data with auth_token := a, refresh_token := t } } =
        reprInstallRequest r) ∧
    (∀ (r : InstallRequest) (a t : String),
      a ≠ r.install_data.auth_token ∨ t ≠ r.install_data.refresh_token →
      unstructure_InstallRequest
        { r with install_data := { r.install_data with auth_token := a, refresh_token := t } } ≠
        unstructure_InstallRequest r) ∧
    (∀ (r : UpdateRequest) (a t : String),
      reprUpdateRequest
        { r with update_data := { r.update_data with auth_token := a, refresh_token := t } } =
        reprUpdateRequest r) ∧
    (∀ (r : UpdateRequest) (a t : String),
      a ≠ r.update_data.auth_token ∨ t ≠ r.update_data.refresh_token →
      unstructure_UpdateRequest
        { r with update_data := { r.update_data with auth_token := a, refresh_token := t } } ≠
        unstructure_UpdateRequest r) ∧
    (∀ (r : EventRequest) (a : String),
      reprEventRequest { r with event_data := { r.event_data with auth_token := a } } =
        reprEventRequest r) ∧
    (∀ (r : EventRequest) (a : String),
      a ≠ r.event_data.auth_token →
      unstructure_EventRequest { r with event_data := { r.event_data with auth_token := a } } ≠
        unstructure_EventRequest r) := by
  refine ⟨fun r a t => rfl, ?_, fun r a t => rfl, ?_, fun r a => rfl, ?_⟩
  · intro r a t hne h
    simp only [unstructure_InstallRequest, unstructure_InstallData, Json.obj, List.foldr] at h
    injection h with _ _ h; injection h with _ _ h; injection h with _ _ h
    injection h with _ _ h; injection h with _ hD _
    injection hD with _ hA hD'; injection hD' with _ hT _
    injection hA with hA; injection hT with hT
    rcases hne with hne | hne
    exacts [hne hA, hne hT]
  · intro r a t hne h
    simp only [unstructure_UpdateRequest, unstructure_UpdateData, Json.obj, List.foldr] at h
    injection h with _ _ h; injection h with _ _ h; injection h with _ _ h
    injection h with _ _ h; injection h with _ hD _
    injection hD with _ hA hD'; injection hD' with _ hT _
    injection hA with hA; injection hT with hT
    rcases hne with hne | hne
    exacts [hne hA, hne hT]
  · intro r a hne h
    simp only [unstructure_EventRequest, unstructure_EventData, Json.obj, List.foldr] at h
    injection h with _ _ h; injection h with _ _ h; injection h with _ _ h
    injection h with _ _ h; injection h with _ hD _
    injection hD with _ hA _
    injection hA with hA
    exact hne hA

/-- C8 witness: a concrete install request whose secrets are replaced —
identical repr, different wire payload. -/
theorem C8_secret_redaction_witness :
    reprInstallRequest
      { lifecycle := .INSTALL, execution_id := "e", locale := "en", version := "1",
        install_data := { auth_token := "s3cret", refresh_token := "r3fresh",
                          installed_app := ⟨"ia", "loc", [], []⟩ },
        settings := [] } =
      reprInstallRequest
      { lifecycle := .INSTALL, execution_id := "e", locale := "en", version := "1",
        install_data := { auth_token := "tokenA", refresh_token := "tokenR",
                          installed_app := ⟨"ia", "loc", [], []⟩ },
        settings := [] } ∧
    unstructure_InstallRequest
      { lifecycle := .INSTALL, execution_id := "e", locale := "en", version := "1",
        install_data := { auth_token := "s3cret", refresh_token := "r3fresh",
                          installed_app := ⟨"ia", "loc", [], []⟩ },
        settings := [] } ≠
      unstructure_InstallRequest
      { lifecycle := .INSTALL, execution_id := "e", locale := "en", version := "1",
        install_data := { auth_token := "tokenA", refresh_token := "tokenR",
                          installed_app := ⟨"ia", "loc", [], []⟩ },
        settings := [] } :=
  ⟨C8_secret_redaction.1
      { lifecycle := .INSTALL, execution_id := "e", locale := "en", version := "1",
        install_data := { auth_token := "tokenA", refresh_token := "tokenR",
                          installed_app := ⟨"ia", "loc", [], []⟩ },
        settings := [] } "s3cret" "r3fresh",
   C8_secret_redaction.2.1
      { lifecycle := .INSTALL, execution_id := "e", locale := "en", version := "1",
        install_data := { auth_token := "tokenA", refresh_token := "tokenR",
                          installed_app := ⟨"ia", "loc", [], []⟩ },
        settings := [] } "s3cret" "r3fresh"
      (Or.inl (by decide))⟩

/-! ## C4 — camelCase wire field names -/

def fields_DeviceValue : List String := ["device_id", "component_id"]
def fields_StringValue : List String := ["value"]
def fields_DeviceConfigValue : List String := ["device_config", "value_type"]
def fields_StringConfigValue : List String := ["string_config", "value_type"]
def fields_InstalledApp : List String :=
  ["installed_app_id", "location_id", "config", "permissions"]
def fields_Event : List String :=
  ["event_time", "event_type", "device_event", "device_lifecycle_event",
   "device_health_event", "device_commands_event", "mode_event", "timer_event",
   "scene_lifecycle_event", "security_arm_state_event", "hub_health_event",
   "installed_app_lifecycle_event", "weather_event", "weather_data", "air_quality_data"]
def fields_ConfirmationData : List String := ["app_id", "confirmation_url"]
def fields_ConfigInit : List String :=
  ["id", "name", "description", "permissions", "first_page_id"]
def fields_ConfigRequestData : List String :=
  ["installed_app_id", "phase", "page_id", "previous_page_id", "config"]
def fields_ConfigInitData : List String := ["initialize"]
def fields_EnumOption : List String := ["id", "name"]
def fields_EnumOptionGroup : List String := ["name", "options"]
def fields_AbstractSetting : List String := ["id", "name", "description", "required"]

def fields_ConfigSetting : ConfigSetting → List String
  | .DeviceSetting .. => fields_AbstractSetting ++ ["type", "multiple", "capabilities", "permissions"]
  | .TextSetting .. => fields_AbstractSetting ++ ["type", "default_value"]
  | .BooleanSetting .. => fields_AbstractSetting ++ ["type", "default_value"]
  | .EnumSetting .. => fields_AbstractSetting ++ ["type", "multiple", "options", "grouped_options"]
  | .LinkSetting .. => fields_AbstractSetting ++ ["type", "url", "image"]
  | .PageSetting .. => fields_AbstractSetting ++ ["type", "page", "image"]
  | .ImageSetting .. => fields_AbstractSetting ++ ["type", "image"]
  | .IconSetting .. => fields_AbstractSetting ++ ["type", "image"]
  | .TimeSetting .. => fields_AbstractSetting ++ ["type"]
  | .ParagraphSetting .. => fields_AbstractSetting ++ ["type", "default_value"]
  | .EmailSetting .. => fields_AbstractSetting ++ ["type"]
  | .DecimalSetting .. => fields_AbstractSetting ++ ["type"]
  | .NumberSetting .. => fields_AbstractSetting ++ ["type"]
  | .PhoneSetting .. => fields_AbstractSetting ++ ["type"]
  | .OauthSetting .. => fields_AbstractSetting ++ ["type", "browser", "url_template"]

def fields_ConfigSection : List String := ["name", "settings"]
def fields_ConfigPage : List String :=
  ["page_id", "name", "previous_page_id", "next_page_id", "complete", "sections"]
def fields_ConfigPageData : List String := ["page"]
def fields_InstallData : List String := ["auth_token", "refresh_token", "installed_app"]
def fields_UpdateData : List String :=
  ["auth_token", "refresh_token", "installed_app", "previous_config", "previous_permissions"]
def fields_UninstallData : List String := ["installed_app"]
def fields_OauthCallbackData : List String := ["installed_app_id", "url_path"]
def fields_EventData : List String := ["auth_token", "installed_app", "events"]
def fields_AbstractRequest : List String := ["lifecycle", "execution_id", "locale", "version"]
def fields_ConfirmationRequest : List String :=
  fields_AbstractRequest ++ ["app_id", "confirmation_data", "settings"]
def fields_ConfigurationRequest : List String :=
  fields_AbstractRequest ++ ["configuration_data", "settings"]
def fields_InstallRequest : List String := fields_AbstractRequest ++ ["install_data", "settings"]
def fields_UpdateRequest : List String := fields_AbstractRequest ++ ["update_data", "settings"]
def fields_UninstallRequest : List String :=
  fields_AbstractRequest ++ ["uninstall_data", "settings"]
def fields_OauthCallbackRequest : List String :=
  fields_AbstractRequest ++ ["o_auth_callback_data"]
def fields_EventRequest : List String := fields_AbstractRequest ++ ["event_data", "settings"]
def fields_ConfirmationResponse : List String := ["target_url"]
def fields_ConfigurationInitResponse : List String := ["configuration_data"]
def fields_ConfigurationPageResponse : List String := ["configuration_data"]
def fields_InstallResponse : List String := ["install_data"]
def fields_UpdateResponse : List String := ["update_data"]
def fields_UninstallResponse : List String := ["uninstall_data"]
def fields_OauthCallbackResponse : List String := ["o_auth_callback_data"]
def fields_EventResponse : List String := ["event_data"]

def unstructure_ConfigValue_keys : ConfigValue → List String
  | .DeviceConfigValue _ => fields_DeviceConfigValue
  | .StringConfigValue _ => fields_StringConfigValue

/-- C4 counterexample: the wire key `oAuthCallbackData` IS the output of the
deterministic camelCase transform applied to the attrs field name
`o_auth_callback_data` — it is not special-cased and does not deviate from the
simple algorithm; the serializer applies the same transform to every field of
the OAuth callback request. -/
theorem C4_oauth_key_counterexample :
    toCamelCase "o_auth_callback_data" = "oAuthCallbackData" ∧
    (unstructure_OauthCallbackRequest ⟨.OAUTH_CALLBACK, "e", "en", "1", ⟨"ia", "/path"⟩⟩).objKeys =
      fields_OauthCallbackRequest.map toCamelCase := by
  constructor
  · decide
  · decide

/-- C4 amended: for every field of every wire object, the JSON key is the
deterministic camelCase transform of the snake_case attrs field name (split on
`_`, first component unchanged, later components title-cased) with NO
per-field exceptions in the converter; the irregular-looking key
`oAuthCallbackData` is produced by the same algorithm because the attrs field
is deliberately named `o_auth_callback_data`.  Stated over the serialized keys
of every embedded class (the parse direction reads the identical keys, as the
round-trip theorems show). -/
theorem C4_wire_keys_are_camel_case :
    (∀ x : DeviceValue, (unstructure_DeviceValue x).objKeys = fields_DeviceValue.map toCamelCase) ∧
    (∀ x : StringValue, (unstructure_StringValue x).objKeys = fields_StringValue.map toCamelCase) ∧
    (∀ x : ConfigValue,
      (unstructure_ConfigValue x).objKeys = (unstructure_ConfigValue_keys x).map toCamelCase) ∧
    (∀ x : InstalledApp,
      (unstructure_InstalledApp x).objKeys = fields_InstalledApp.map toCamelCase) ∧
    (∀ x : Event, (unstructure_Event x).objKeys = fields_Event.map toCamelCase) ∧
    (∀ x : ConfirmationData,
      (unstructure_ConfirmationData x).objKeys = fields_ConfirmationData.map toCamelCase) ∧
    (∀ x : ConfigInit, (unstructure_ConfigInit x).objKeys = fields_ConfigInit.map toCamelCase) ∧
    (∀ x : ConfigRequestData,
      (unstructure_ConfigRequestData x).objKeys = fields_ConfigRequestData.map toCamelCase) ∧
    (∀ x : ConfigInitData,
      (unstructure_ConfigInitData x).objKeys = fields_ConfigInitData.map toCamelCase) ∧
    (∀ x : EnumOption, (unstructure_EnumOption x).objKeys = fields_EnumOption.map toCamelCase) ∧
    (∀ x : EnumOptionGroup,
      (unstructure_EnumOptionGroup x).objKeys = fields_EnumOptionGroup.map toCamelCase) ∧
    (∀ x : ConfigSetting,
      (unstructure_ConfigSetting x).objKeys = (fields_ConfigSetting x).map toCamelCase) ∧
    (∀ x : ConfigSection,
      (unstructure_ConfigSection x).objKeys = fields_ConfigSection.map toCamelCase) ∧
    (∀ x : ConfigPage, (unstructure_ConfigPage x).objKeys = fields_ConfigPage.map toCamelCase) ∧
    (∀ x : ConfigPageData,
      (unstructure_ConfigPageData x).objKeys = fields_ConfigPageData.map toCamelCase) ∧
    (∀ x : InstallData,
      (unstructure_InstallData x).objKeys = fields_InstallData.map toCamelCase) ∧
    (∀ x : UpdateData, (unstructure_UpdateData x).objKeys = fields_UpdateData.map toCamelCase) ∧
    (∀ x : UninstallData,
      (unstructure_UninstallData x).objKeys = fields_UninstallData.map toCamelCase) ∧
    (∀ x : OauthCallbackData,
      (unstructure_OauthCallbackData x).objKeys = fields_OauthCallbackData.map toCamelCase) ∧
    (∀ x : EventData, (unstructure_EventData x).objKeys = fields_EventData.map toCamelCase) ∧
    (∀ x : ConfirmationRequest,
      (unstructure_ConfirmationRequest x).objKeys = fields_ConfirmationRequest.map toCamelCase) ∧
    (∀ x : ConfigurationRequest,
      (unstructure_ConfigurationRequest x).objKeys = fields_ConfigurationRequest.map toCamelCase) ∧
    (∀ x : InstallRequest,
      (unstructure_InstallRequest x).objKeys = fields_InstallRequest.map toCamelCase) ∧
    (∀ x : UpdateRequest,
      (unstructure_UpdateRequest x).objKeys = fields_UpdateRequest.map toCamelCase) ∧
    (∀ x : UninstallRequest,
      (unstructure_UninstallRequest x).objKeys = fields_UninstallRequest.map toCamelCase) ∧
    (∀ x : OauthCallbackRequest,
      (unstructure_OauthCallbackRequest x).objKeys = fields_OauthCallbackRequest.map toCamelCase) ∧
    (∀ x : EventRequest,
      (unstructure_EventRequest x).objKeys = fields_EventRequest.map toCamelCase) ∧
    (∀ x : ConfirmationResponse,
      (unstructure_ConfirmationResponse x).objKeys = fields_ConfirmationResponse.map toCamelCase) ∧
    (∀ x : ConfigurationInitResponse,
      (unstructure_ConfigurationInitResponse x).objKeys =
        fields_ConfigurationInitResponse.map toCamelCase) ∧
    (∀ x : ConfigurationPageResponse,
      (unstructure_ConfigurationPageResponse x).objKeys =
        fields_ConfigurationPageResponse.map toCamelCase) ∧
    (∀ x : InstallResponse,
      (unstructure_InstallResponse x).objKeys = fields_InstallResponse.map toCamelCase) ∧
    (∀ x : UpdateResponse,
      (unstructure_UpdateResponse x).objKeys = fields_UpdateResponse.map toCamelCase) ∧
    (∀ x : UninstallResponse,
      (unstructure_UninstallResponse x).objKeys = fields_UninstallResponse.map toCamelCase) ∧
    (∀ x : OauthCallbackResponse,
      (unstructure_OauthCallbackResponse x).objKeys =
        fields_OauthCallbackResponse.map toCamelCase) ∧
    (∀ x : EventResponse,
      (unstructure_EventResponse x).objKeys = fields_EventResponse.map toCamelCase) := by
  refine ⟨fun x => rfl, fun x => rfl, ?_, fun x => rfl, fun x => rfl, fun x => rfl, fun x => rfl,
          fun x => rfl, fun x => rfl, fun x => rfl, fun x => rfl, ?_, fun x => rfl, fun x => rfl,
          fun x => rfl, fun x => rfl, fun x => rfl, fun x => rfl, fun x => rfl, fun x => rfl,
          fun x => rfl, fun x => rfl, fun x => rfl, fun x => rfl, fun x => rfl, fun x => rfl,
          fun x => rfl, fun x => rfl, fun x => rfl, fun x => rfl, fun x => rfl, fun x => rfl,
          fun x => rfl, fun x => rfl, fun x => rfl⟩
  · intro x; cases x <;> rfl
  · intro x; cases x <;> rfl

/-! ## C7 — round-trip lemmas

The claim is about `parse(serialize(x))`, i.e.
`CONVERTER.from_json(CONVERTER.to_json(x), cls)`.  `to_json`/`from_json`
delegate the text layer to the Python `json` standard library
(`dumps`/`loads`); the converter code of this repository is the
unstructure/structure hooks, so the round-trip theorems are stated at the
structured layer (`structure_* (unstructure_* x) = ok x`), with the stdlib
text codec as the trusted boundary between them. -/

theorem digitVal_digitChar (d : Nat) (h : d < 10) :
    digitVal? (Nat.digitChar d) = some d := by
  interval_cases d <;> rfl

theorem digits2_pad (n : Nat) (h : n < 100) :
    digits2 (Nat.digitChar (n / 10 % 10)) (Nat.digitChar (n % 10)) = some n := by
  have h1 : n / 10 % 10 < 10 := Nat.mod_lt _ (by norm_num)
  have h2 : n % 10 < 10 := Nat.mod_lt _ (by norm_num)
  simp only [digits2, digitVal_digitChar _ h1, digitVal_digitChar _ h2,
             Bind.bind, Option.bind, Option.pure_def]
  congr 1
  omega

theorem digits3_pad (n : Nat) (h : n < 1000) :
    digits3 (Nat.digitChar (n / 100 % 10)) (Nat.digitChar (n / 10 % 10))
      (Nat.digitChar (n % 10)) = some n := by
  have h1 : n / 100 % 10 < 10 := Nat.mod_lt _ (by norm_num)
  have h2 : n / 10 % 10 < 10 := Nat.mod_lt _ (by norm_num)
  have h3 : n % 10 < 10 := Nat.mod_lt _ (by norm_num)
  simp only [digits3, digitVal_digitChar _ h1, digitVal_digitChar _ h2,
             digitVal_digitChar _ h3, Bind.bind, Option.bind, Option.pure_def]
  congr 1
  omega

theorem digits4_pad (n : Nat) (h : n < 10000) :
    digits4 (Nat.digitChar (n / 1000 % 10)) (Nat.digitChar (n / 100 % 10))
      (Nat.digitChar (n / 10 % 10)) (Nat.digitChar (n % 10)) = some n := by
  have h1 : n / 1000 % 10 < 10 := Nat.mod_lt _ (by norm_num)
  have h2 : n / 100 % 10 < 10 := Nat.mod_lt _ (by norm_num)
  have h3 : n / 10 % 10 < 10 := Nat.mod_lt _ (by norm_num)
  have h4 : n % 10 < 10 := Nat.mod_lt _ (by norm_num)
  simp only [digits4, digitVal_digitChar _ h1, digitVal_digitChar _ h2,
             digitVal_digitChar _ h3, digitVal_digitChar _ h4,
             Bind.bind, Option.bind, Option.pure_def]
  congr 1
  omega

theorem daysInMonth_le (y m : Nat) : daysInMonth y m ≤ 31 := by
  unfold daysInMonth
  split_ifs <;> omega

theorem serialize_datetime_length (dt : PDateTime) :
    (serialize_datetime dt).length = 24 := rfl

theorem parseMs_serialize (dt : PDateTime) (hv : dt.valid)
    (hms : dt.microsecond % 1000 = 0) :
    parseDatetimeMs (serialize_datetime dt) = .ok dt := by
  obtain ⟨h1, h2, h3, h4, h5, h6, h7, h8, h9, h10⟩ := hv
  simp only [serialize_datetime, parseDatetimeMs, pad4, pad3, pad2,
             List.cons_append, List.nil_append]
  have hday : dt.day < 100 := by
    have := daysInMonth_le dt.year dt.month
    omega
  rw [digits4_pad dt.year (by omega), digits2_pad dt.month (by omega),
      digits2_pad dt.day hday, digits2_pad dt.hour (by omega),
      digits2_pad dt.minute (by omega), digits2_pad dt.second (by omega),
      digits3_pad (dt.microsecond / 1000) (by omega)]
  have hchk : checkRanges dt.year dt.month dt.day dt.hour dt.minute dt.second = true := by
    simp only [checkRanges, decide_eq_true_eq]
    exact ⟨h1, h2, h3, h4, h5, h6, h7, h8, h9⟩
  have hmul : dt.microsecond / 1000 * 1000 = dt.microsecond := by omega
  simp [hchk, hmul]

theorem deserialize_serialize (nowDt dt : PDateTime) (hv : dt.valid)
    (hms : dt.microsecond % 1000 = 0) (hne : dt ≠ epochDateTime) :
    deserialize_datetime nowDt (serialize_datetime dt) = .ok dt := by
  have hp := parseMs_serialize dt hv hms
  have hnotms : serialize_datetime dt ≠ DATETIME_MS_EPOCH := by
    intro he
    have h2 : parseDatetimeMs DATETIME_MS_EPOCH = .ok dt := he ▸ hp
    rw [show parseDatetimeMs DATETIME_MS_EPOCH = .ok epochDateTime from by decide] at h2
    exact hne (Except.ok.inj h2.symm)
  have hnotsec : serialize_datetime dt ≠ DATETIME_SEC_EPOCH := by
    intro he
    have h2 := congrArg String.length he
    rw [serialize_datetime_length] at h2
    rw [show DATETIME_SEC_EPOCH.length = 20 from by decide] at h2
    cases h2
  unfold deserialize_datetime
  rw [if_neg (by rintro (he | he); exacts [hnotms he, hnotsec he]),
      if_pos (serialize_datetime_length dt)]
  exact hp

/-- Well-formedness of an optional event timestamp: when present it is a valid
calendar datetime with whole-millisecond precision, distinct from the
UNIX-epoch sentinel. -/
def wfOptDT : Option PDateTime → Prop
  | none => True
  | some dt => dt.valid ∧ dt.microsecond % 1000 = 0 ∧ dt ≠ epochDateTime

instance (o : Option PDateTime) : Decidable (wfOptDT o) := by
  unfold wfOptDT
  cases o <;> infer_instance

theorem rt_optDateTime (nowDt : PDateTime) (o : Option PDateTime) (h : wfOptDT o) :
    asOpt (structure_DateTime nowDt) (unstructure_optDateTime o) = .ok o := by
  cases o with
  | none => rfl
  | some dt =>
      obtain ⟨hv, hms, hne⟩ := h
      simp only [unstructure_optDateTime, asOpt, structure_DateTime, asStr,
                 Bind.bind, Except.bind, deserialize_serialize nowDt dt hv hms hne]
      rfl

theorem obj_nil : Json.obj [] = Json.objNil := rfl

theorem obj_cons (kv : String × Json) (t : List (String × Json)) :
    Json.obj (kv :: t) = Json.objCons kv.1 kv.2 (Json.obj t) := rfl

theorem arr_nil : Json.arr [] = Json.arrNil := rfl

theorem arr_cons (x : Json) (t : List Json) :
    Json.arr (x :: t) = Json.arrCons x (Json.arr t) := rfl

theorem asObjFields_obj (l : List (String × Json)) :
    (Json.obj l).asObjFields = .ok l := by
  simp [Json.asObjFields, asObj_obj]

theorem asArrItems_arr (l : List Json) :
    (Json.arr l).asArrItems = .ok l := by
  simp [Json.asArrItems, asArr_arr]

theorem asOpt_obj {α : Type} (f : Json → Except PyError α) (l : List (String × Json)) (r : α)
    (h : f (Json.obj l) = .ok r) : asOpt f (Json.obj l) = .ok (some r) := by
  cases l with
  | nil => rw [obj_nil] at h ⊢; simp [asOpt, h]; rfl
  | cons kv t => rw [obj_cons] at h ⊢; simp [asOpt, h]; rfl

theorem asOpt_arr {α : Type} (f : Json → Except PyError α) (l : List Json) (r : α)
    (h : f (Json.arr l) = .ok r) : asOpt f (Json.arr l) = .ok (some r) := by
  cases l with
  | nil => rw [arr_nil] at h ⊢; simp [asOpt, h]; rfl
  | cons x t => rw [arr_cons] at h ⊢; simp [asOpt, h]; rfl

theorem asOpt_str {α : Type} (f : Json → Except PyError α) (s : String) (r : α)
    (h : f (Json.str s) = .ok r) : asOpt f (Json.str s) = .ok (some r) := by
  simp [asOpt, h]; rfl

theorem rt_optBool (o : Option Bool) : asOpt asBool (unstructure_optBool o) = .ok o := by
  cases o <;> rfl

theorem rt_optStr (o : Option String) : asOpt asStr (unstructure_optStr o) = .ok o := by
  cases o <;> rfl

theorem rt_strList (l : List String) : asStrList (unstructure_strList l) = .ok l := by
  simp only [asStrList, unstructure_strList, asArrItems_arr, Bind.bind, Except.bind]
  exact mapM_map_rt _ _ _ (fun a _ => rfl)

theorem rt_anyDict (d : List (String × Json)) :
    asAnyDict (unstructure_anyDict d) = .ok d :=
  asObjFields_obj d

theorem rt_optAnyDict (o : Option (List (String × Json))) :
    asOpt asAnyDict (unstructure_optAnyDict o) = .ok o := by
  cases o with
  | none => rfl
  | some d => exact asOpt_obj _ _ _ (asObjFields_obj d)

theorem LifecyclePhase_fromName_value (p : LifecyclePhase) :
    LifecyclePhase.fromName? p.value = some p := by
  cases p <;> rfl

theorem ConfigPhase_fromValue_value (p : ConfigPhase) :
    ConfigPhase.fromValue? p.value = some p := by
  cases p <;> rfl

theorem EventType_fromValue_value (t : EventType) :
    EventType.fromValue? t.value = some t := by
  cases t <;> rfl

theorem BooleanValue_fromValue_value (b : BooleanValue) :
    BooleanValue.fromValue? b.value = some b := by
  cases b <;> rfl

theorem rt_DeviceValue (v : DeviceValue) :
    structure_DeviceValue (unstructure_DeviceValue v) = .ok v := by
  simp [structure_DeviceValue, unstructure_DeviceValue, asObjFields_obj,
        lookupR, jlookup, asStr, Bind.bind, Except.bind, pure, Except.pure]

theorem rt_StringValue (v : StringValue) :
    structure_StringValue (unstructure_StringValue v) = .ok v := by
  simp [structure_StringValue, unstructure_StringValue, asObjFields_obj,
        lookupR, jlookup, asStr, Bind.bind, Except.bind, pure, Except.pure]

theorem rt_ConfigValue (v : ConfigValue) :
    structure_ConfigValue (unstructure_ConfigValue v) = .ok v := by
  cases v with
  | DeviceConfigValue d =>
      simp [structure_ConfigValue, unstructure_ConfigValue, asObjFields_obj,
            lookupR, jlookup, asStr, Bind.bind, Except.bind, pure, Except.pure,
            ConfigValueType.fromName?, rt_DeviceValue]
  | StringConfigValue s =>
      simp [structure_ConfigValue, unstructure_ConfigValue, asObjFields_obj,
            lookupR, jlookup, asStr, Bind.bind, Except.bind, pure, Except.pure,
            ConfigValueType.fromName?, rt_StringValue]

theorem rt_configEntry (kv : String × List ConfigValue) :
    structure_configEntry (unstructure_configEntry kv) = .ok kv := by
  simp only [structure_configEntry, unstructure_configEntry, asArrItems_arr,
             Bind.bind, Except.bind, mapM_map_rt _ _ _ (fun a _ => rt_ConfigValue a)]
  rfl

theorem rt_configDict (d : List (String × List ConfigValue)) :
    structure_configDict (unstructure_configDict d) = .ok d := by
  simp only [structure_configDict, unstructure_configDict, asObjFields_obj,
             Bind.bind, Except.bind]
  exact mapM_map_rt _ _ _ (fun kv _ => rt_configEntry kv)

theorem rt_optConfigDict (o : Option (List (String × List ConfigValue))) :
    asOpt structure_configDict (unstructure_optConfigDict o) = .ok o := by
  cases o with
  | none => rfl
  | some d => exact asOpt_obj _ _ _ (rt_configDict d)

theorem rt_InstalledApp (app : InstalledApp) :
    structure_InstalledApp (unstructure_InstalledApp app) = .ok app := by
  simp [structure_InstalledApp, unstructure_InstalledApp, asObjFields_obj,
        lookupR, lookupD, jlookup, asStr, Bind.bind, Except.bind, pure, Except.pure,
        rt_configDict, rt_strList]

theorem rt_Event (nowDt : PDateTime) (e : Event) (h : wfOptDT e.event_time) :
    structure_Event nowDt (unstructure_Event e) = .ok e := by
  simp [structure_Event, unstructure_Event, asObjFields_obj, lookupR, lookupD, jlookup,
        Bind.bind, Except.bind, pure, Except.pure, rt_optDateTime nowDt _ h, rt_optAnyDict,
        structure_EventType, asStr, EventType_fromValue_value]

theorem rt_ConfirmationData (d : ConfirmationData) :
    structure_ConfirmationData (unstructure_ConfirmationData d) = .ok d := by
  simp [structure_ConfirmationData, unstructure_ConfirmationData, asObjFields_obj,
        lookupR, jlookup, asStr, Bind.bind, Except.bind, pure, Except.pure]

theorem rt_ConfigRequestData (d : ConfigRequestData) :
    structure_ConfigRequestData (unstructure_ConfigRequestData d) = .ok d := by
  simp [structure_ConfigRequestData, unstructure_ConfigRequestData, asObjFields_obj,
        lookupR, jlookup, asStr, Bind.bind, Except.bind, pure, Except.pure,
        structure_ConfigPhase, ConfigPhase_fromValue_value, rt_configDict]

theorem rt_ConfigInit (c : ConfigInit) :
    structure_ConfigInit (unstructure_ConfigInit c) = .ok c := by
  simp [structure_ConfigInit, unstructure_ConfigInit, asObjFields_obj,
        lookupR, jlookup, asStr, Bind.bind, Except.bind, pure, Except.pure, rt_strList]

theorem rt_ConfigInitData (d : ConfigInitData) :
    structure_ConfigInitData (unstructure_ConfigInitData d) = .ok d := by
  simp [structure_ConfigInitData, unstructure_ConfigInitData, asObjFields_obj,
        lookupR, jlookup, Bind.bind, Except.bind, pure, Except.pure, rt_ConfigInit]

theorem rt_EnumOption (o : EnumOption) :
    structure_EnumOption (unstructure_EnumOption o) = .ok o := by
  simp [structure_EnumOption, unstructure_EnumOption, asObjFields_obj,
        lookupR, jlookup, asStr, Bind.bind, Except.bind, pure, Except.pure]

theorem rt_optionList (l : List EnumOption) :
    structure_optionList (Json.arr (l.map unstructure_EnumOption)) = .ok l := by
  simp only [structure_optionList, asArrItems_arr, Bind.bind, Except.bind]
  exact mapM_map_rt _ _ _ (fun a _ => rt_EnumOption a)

theorem rt_EnumOptionGroup (g : EnumOptionGroup) :
    structure_EnumOptionGroup (unstructure_EnumOptionGroup g) = .ok g := by
  simp [structure_EnumOptionGroup, unstructure_EnumOptionGroup, asObjFields_obj,
        lookupR, jlookup, asStr, Bind.bind, Except.bind, pure, Except.pure, rt_optionList]

theorem rt_groupList (l : List EnumOptionGroup) :
    structure_groupList (Json.arr (l.map unstructure_EnumOptionGroup)) = .ok l := by
  simp only [structure_groupList, asArrItems_arr, Bind.bind, Except.bind]
  exact mapM_map_rt _ _ _ (fun a _ => rt_EnumOptionGroup a)

theorem rt_optEnumOptions (o : Option (List EnumOption)) :
    asOpt structure_optionList (unstructure_optEnumOptions o) = .ok o := by
  cases o with
  | none => rfl
  | some l => exact asOpt_arr _ _ _ (rt_optionList l)

theorem rt_optEnumOptionGroups (o : Option (List EnumOptionGroup)) :
    asOpt structure_groupList (unstructure_optEnumOptionGroups o) = .ok o := by
  cases o with
  | none => rfl
  | some l => exact asOpt_arr _ _ _ (rt_groupList l)

theorem rt_SettingBase (base : SettingBase) (extras : List (String × Json)) :
    structure_SettingBase (("id", Json.str base.id) :: ("name", Json.str base.name) ::
      ("description", Json.str base.description) ::
      ("required", unstructure_optBool base.required) :: extras) = .ok base := by
  simp [structure_SettingBase, lookupR, lookupD, jlookup, asStr, Bind.bind, Except.bind,
        pure, Except.pure, rt_optBool]

theorem rt_BooleanValue (b : BooleanValue) :
    structure_BooleanValue (Json.str b.value) = .ok b := by
  simp [structure_BooleanValue, asStr, Bind.bind, Except.bind, BooleanValue_fromValue_value]

theorem rt_ConfigSetting (s : ConfigSetting) :
    structure_ConfigSetting (unstructure_ConfigSetting s) = .ok s := by
  cases s <;>
    simp [unstructure_ConfigSetting, structure_ConfigSetting, unstructure_SettingBase,
          List.cons_append, List.nil_append, asObjFields_obj, jlookup,
          ConfigSettingType.fromName?, rt_SettingBase, lookupR, lookupD, asStr, asBool,
          Bind.bind, Except.bind, pure, Except.pure, rt_strList, rt_BooleanValue,
          rt_optEnumOptions, rt_optEnumOptionGroups]

theorem rt_settingList (l : List ConfigSetting) :
    structure_settingList (Json.arr (l.map unstructure_ConfigSetting)) = .ok l := by
  simp only [structure_settingList, asArrItems_arr, Bind.bind, Except.bind]
  exact mapM_map_rt _ _ _ (fun a _ => rt_ConfigSetting a)

theorem rt_ConfigSection (s : ConfigSection) :
    structure_ConfigSection (unstructure_ConfigSection s) = .ok s := by
  simp [structure_ConfigSection, unstructure_ConfigSection, asObjFields_obj,
        lookupR, jlookup, asStr, Bind.bind, Except.bind, pure, Except.pure, rt_settingList]

theorem rt_sectionList (l : List ConfigSection) :
    structure_sectionList (Json.arr (l.map unstructure_ConfigSection)) = .ok l := by
  simp only [structure_sectionList, asArrItems_arr, Bind.bind, Except.bind]
  exact mapM_map_rt _ _ _ (fun a _ => rt_ConfigSection a)

theorem rt_ConfigPage (p : ConfigPage) :
    structure_ConfigPage (unstructure_ConfigPage p) = .ok p := by
  simp [structure_ConfigPage, unstructure_ConfigPage, asObjFields_obj,
        lookupR, jlookup, asStr, asBool, Bind.bind, Except.bind, pure, Except.pure,
        rt_optStr, rt_sectionList]

theorem rt_ConfigPageData (d : ConfigPageData) :
    structure_ConfigPageData (unstructure_ConfigPageData d) = .ok d := by
  simp [structure_ConfigPageData, unstructure_ConfigPageData, asObjFields_obj,
        lookupR, jlookup, Bind.bind, Except.bind, pure, Except.pure, rt_ConfigPage]

theorem rt_InstallData (d : InstallData) :
    structure_InstallData (unstructure_InstallData d) = .ok d := by
  simp [structure_InstallData, unstructure_InstallData, asObjFields_obj,
        lookupR, jlookup, asStr, Bind.bind, Except.bind, pure, Except.pure, rt_InstalledApp]

theorem rt_UpdateData (d : UpdateData) :
    structure_UpdateData (unstructure_UpdateData d) = .ok d := by
  simp [structure_UpdateData, unstructure_UpdateData, asObjFields_obj,
        lookupR, lookupD, jlookup, asStr, Bind.bind, Except.bind, pure, Except.pure,
        rt_InstalledApp, rt_optConfigDict, rt_strList]

theorem rt_UninstallData (d : UninstallData) :
    structure_UninstallData (unstructure_UninstallData d) = .ok d := by
  simp [structure_UninstallData, unstructure_UninstallData, asObjFields_obj,
        lookupR, jlookup, Bind.bind, Except.bind, pure, Except.pure, rt_InstalledApp]

theorem rt_OauthCallbackData (d : OauthCallbackData) :
    structure_OauthCallbackData (unstructure_OauthCallbackData d) = .ok d := by
  simp [structure_OauthCallbackData, unstructure_OauthCallbackData, asObjFields_obj,
        lookupR, jlookup, asStr, Bind.bind, Except.bind, pure, Except.pure]

theorem rt_eventList (nowDt : PDateTime) (l : List Event)
    (h : ∀ ev ∈ l, wfOptDT ev.event_time) :
    structure_eventList nowDt (Json.arr (l.map unstructure_Event)) = .ok l := by
  simp only [structure_eventList, asArrItems_arr, Bind.bind, Except.bind]
  exact mapM_map_rt _ _ _ (fun ev hev => rt_Event nowDt ev (h ev hev))

theorem rt_EventData (nowDt : PDateTime) (d : EventData)
    (h : ∀ ev ∈ d.events, wfOptDT ev.event_time) :
    structure_EventData nowDt (unstructure_EventData d) = .ok d := by
  simp [structure_EventData, unstructure_EventData, asObjFields_obj,
        lookupR, jlookup, asStr, Bind.bind, Except.bind, pure, Except.pure,
        rt_InstalledApp, rt_eventList nowDt d.events h]

theorem rt_LifecyclePhase (p : LifecyclePhase) :
    structure_LifecyclePhase (Json.str p.value) = .ok p := by
  simp [structure_LifecyclePhase, asStr, Bind.bind, Except.bind, LifecyclePhase_fromName_value]

theorem rt_ConfirmationRequest (r : ConfirmationRequest) :
    structure_ConfirmationRequest (unstructure_ConfirmationRequest r) = .ok r := by
  simp [structure_ConfirmationRequest, unstructure_ConfirmationRequest, asObjFields_obj,
        lookupR, lookupD, jlookup, asStr, Bind.bind, Except.bind, pure, Except.pure,
        rt_LifecyclePhase, rt_ConfirmationData, rt_anyDict]

theorem rt_ConfigurationRequest (r : ConfigurationRequest) :
    structure_ConfigurationRequest (unstructure_ConfigurationRequest r) = .ok r := by
  simp [structure_ConfigurationRequest, unstructure_ConfigurationRequest, asObjFields_obj,
        lookupR, lookupD, jlookup, asStr, Bind.bind, Except.bind, pure, Except.pure,
        rt_LifecyclePhase, rt_ConfigRequestData, rt_anyDict]

theorem rt_InstallRequest (r : InstallRequest) :
    structure_InstallRequest (unstructure_InstallRequest r) = .ok r := by
  simp [structure_InstallRequest, unstructure_InstallRequest, asObjFields_obj,
        lookupR, lookupD, jlookup, asStr, Bind.bind, Except.bind, pure, Except.pure,
        rt_LifecyclePhase, rt_InstallData, rt_anyDict]

theorem rt_UpdateRequest (r : UpdateRequest) :
    structure_UpdateRequest (unstructure_UpdateRequest r) = .ok r := by
  simp [structure_UpdateRequest, unstructure_UpdateRequest, asObjFields_obj,
        lookupR, lookupD, jlookup, asStr, Bind.bind, Except.bind, pure, Except.pure,
        rt_LifecyclePhase, rt_UpdateData, rt_anyDict]

theorem rt_UninstallRequest (r : UninstallRequest) :
    structure_UninstallRequest (unstructure_UninstallRequest r) = .ok r := by
  simp [structure_UninstallRequest, unstructure_UninstallRequest, asObjFields_obj,
        lookupR, lookupD, jlookup, asStr, Bind.bind, Except.bind, pure, Except.pure,
        rt_LifecyclePhase, rt_UninstallData, rt_anyDict]

theorem rt_OauthCallbackRequest (r : OauthCallbackRequest) :
    structure_OauthCallbackRequest (unstructure_OauthCallbackRequest r) = .ok r := by
  simp [structure_OauthCallbackRequest, unstructure_OauthCallbackRequest, asObjFields_obj,
        lookupR, jlookup, asStr, Bind.bind, Except.bind, pure, Except.pure,
        rt_LifecyclePhase, rt_OauthCallbackData]

theorem rt_EventRequest (nowDt : PDateTime) (r : EventRequest)
    (h : ∀ ev ∈ r.event_data.events, wfOptDT ev.event_time) :
    structure_EventRequest nowDt (unstructure_EventRequest r) = .ok r := by
  simp [structure_EventRequest, unstructure_EventRequest, asObjFields_obj,
        lookupR, lookupD, jlookup, asStr, Bind.bind, Except.bind, pure, Except.pure,
        rt_LifecyclePhase, rt_EventData nowDt r.event_data h, rt_anyDict]

/-- A "valid constructed" lifecycle request: the `lifecycle` discriminator
matches the variant, and event timestamps are well-formed. -/
def LifecycleRequest.wf : LifecycleRequest → Prop
  | .confirmation r => r.lifecycle = .CONFIRMATION
  | .configuration r => r.lifecycle = .CONFIGURATION
  | .install r => r.lifecycle = .INSTALL
  | .update r => r.lifecycle = .UPDATE
  | .uninstall r => r.lifecycle = .UNINSTALL
  | .oauthCallback r => r.lifecycle = .OAUTH_CALLBACK
  | .event r => r.lifecycle = .EVENT ∧ ∀ ev ∈ r.event_data.events, wfOptDT ev.event_time

instance (x : LifecycleRequest) : Decidable x.wf := by
  cases x <;> simp only [LifecycleRequest.wf] <;> infer_instance

theorem rt_LifecycleRequest (nowDt : PDateTime) (x : LifecycleRequest) (h : x.wf) :
    structure_LifecycleRequest nowDt (unstructure_LifecycleRequest x) = .ok x := by
  cases x with
  | confirmation r =>
      have hl : r.lifecycle = LifecyclePhase.CONFIRMATION := h
      have hj := rt_ConfirmationRequest r
      simp only [unstructure_ConfirmationRequest, hl, LifecyclePhase.value] at hj
      simp [unstructure_LifecycleRequest, unstructure_ConfirmationRequest,
            structure_LifecycleRequest, asObjFields_obj, Bind.bind, Except.bind,
            jlookup, hl, LifecyclePhase.value, LifecyclePhase.fromName?, hj, Except.map]
  | configuration r =>
      have hl : r.lifecycle = LifecyclePhase.CONFIGURATION := h
      have hj := rt_ConfigurationRequest r
      simp only [unstructure_ConfigurationRequest, hl, LifecyclePhase.value] at hj
      simp [unstructure_LifecycleRequest, unstructure_ConfigurationRequest,
            structure_LifecycleRequest, asObjFields_obj, Bind.bind, Except.bind,
            jlookup, hl, LifecyclePhase.value, LifecyclePhase.fromName?, hj, Except.map]
  | install r =>
      have hl : r.lifecycle = LifecyclePhase.INSTALL := h
      have hj := rt_InstallRequest r
      simp only [unstructure_InstallRequest, hl, LifecyclePhase.value] at hj
      simp [unstructure_LifecycleRequest, unstructure_InstallRequest,
            structure_LifecycleRequest, asObjFields_obj, Bind.bind, Except.bind,
            jlookup, hl, LifecyclePhase.value, LifecyclePhase.fromName?, hj, Except.map]
  | update r =>
      have hl : r.lifecycle = LifecyclePhase.UPDATE := h
      have hj := rt_UpdateRequest r
      simp only [unstructure_UpdateRequest, hl, LifecyclePhase.value] at hj
      simp [unstructure_LifecycleRequest, unstructure_UpdateRequest,
            structure_LifecycleRequest, asObjFields_obj, Bind.bind, Except.bind,
            jlookup, hl, LifecyclePhase.value, LifecyclePhase.fromName?, hj, Except.map]
  | uninstall r =>
      have hl : r.lifecycle = LifecyclePhase.UNINSTALL := h
      have hj := rt_UninstallRequest r
      simp only [unstructure_UninstallRequest, hl, LifecyclePhase.value] at hj
      simp [unstructure_LifecycleRequest, unstructure_UninstallRequest,
            structure_LifecycleRequest, asObjFields_obj, Bind.bind, Except.bind,
            jlookup, hl, LifecyclePhase.value, LifecyclePhase.fromName?, hj, Except.map]
  | oauthCallback r =>
      have hl : r.lifecycle = LifecyclePhase.OAUTH_CALLBACK := h
      have hj := rt_OauthCallbackRequest r
      simp only [unstructure_OauthCallbackRequest, hl, LifecyclePhase.value] at hj
      simp [unstructure_LifecycleRequest, unstructure_OauthCallbackRequest,
            structure_LifecycleRequest, asObjFields_obj, Bind.bind, Except.bind,
            jlookup, hl, LifecyclePhase.value, LifecyclePhase.fromName?, hj, Except.map]
  | event r =>
      obtain ⟨hl, hev⟩ := h
      have hj := rt_EventRequest nowDt r hev
      simp only [unstructure_EventRequest, hl, LifecyclePhase.value] at hj
      simp [unstructure_LifecycleRequest, unstructure_EventRequest,
            structure_LifecycleRequest, asObjFields_obj, Bind.bind, Except.bind,
            jlookup, hl, LifecyclePhase.value, LifecyclePhase.fromName?, hj, Except.map]

theorem rt_ConfirmationResponse (r : ConfirmationResponse) :
    structure_ConfirmationResponse (unstructure_ConfirmationResponse r) = .ok r := by
  simp [structure_ConfirmationResponse, unstructure_ConfirmationResponse, asObjFields_obj,
        lookupR, jlookup, asStr, Bind.bind, Except.bind, pure, Except.pure]

theorem rt_ConfigurationInitResponse (r : ConfigurationInitResponse) :
    structure_ConfigurationInitResponse (unstructure_ConfigurationInitResponse r) = .ok r := by
  simp [structure_ConfigurationInitResponse, unstructure_ConfigurationInitResponse,
        asObjFields_obj, lookupR, jlookup, Bind.bind, Except.bind, pure, Except.pure,
        rt_ConfigInitData]

theorem rt_ConfigurationPageResponse (r : ConfigurationPageResponse) :
    structure_ConfigurationPageResponse (unstructure_ConfigurationPageResponse r) = .ok r := by
  simp [structure_ConfigurationPageResponse, unstructure_ConfigurationPageResponse,
        asObjFields_obj, lookupR, jlookup, Bind.bind, Except.bind, pure, Except.pure,
        rt_ConfigPageData]

theorem rt_InstallResponse (r : InstallResponse) :
    structure_InstallResponse (unstructure_InstallResponse r) = .ok r := by
  simp [structure_InstallResponse, unstructure_InstallResponse, asObjFields_obj,
        lookupD, jlookup, Bind.bind, Except.bind, pure, Except.pure, rt_anyDict]

theorem rt_UpdateResponse (r : UpdateResponse) :
    structure_UpdateResponse (unstructure_UpdateResponse r) = .ok r := by
  simp [structure_UpdateResponse, unstructure_UpdateResponse, asObjFields_obj,
        lookupD, jlookup, Bind.bind, Except.bind, pure, Except.pure, rt_anyDict]

theorem rt_UninstallResponse (r : UninstallResponse) :
    structure_UninstallResponse (unstructure_UninstallResponse r) = .ok r := by
  simp [structure_UninstallResponse, unstructure_UninstallResponse, asObjFields_obj,
        lookupD, jlookup, Bind.bind, Except.bind, pure, Except.pure, rt_anyDict]

theorem rt_OauthCallbackResponse (r : OauthCallbackResponse) :
    structure_OauthCallbackResponse (unstructure_OauthCallbackResponse r) = .ok r := by
  simp [structure_OauthCallbackResponse, unstructure_OauthCallbackResponse, asObjFields_obj,
        lookupD, jlookup, Bind.bind, Except.bind, pure, Except.pure, rt_anyDict]

theorem rt_EventResponse (r : EventResponse) :
    structure_EventResponse (unstructure_EventResponse r) = .ok r := by
  simp [structure_EventResponse, unstructure_EventResponse, asObjFields_obj,
        lookupD, jlookup, Bind.bind, Except.bind, pure, Except.pure, rt_anyDict]

/-- An EVENT request whose single event carries the UNIX-epoch sentinel
timestamp. -/
def epochEventRequest : LifecycleRequest :=
  .event
    { lifecycle := .EVENT, execution_id := "e", locale := "en", version := "1",
      event_data := { auth_token := "tok", installed_app := ⟨"ia", "loc", [], []⟩,
                      events := [⟨some epochDateTime, .TIMER_EVENT, none, none, none, none,
                                  none, none, none, none, none, none, none, none, none⟩] },
      settings := [] }

/-- The same request as parsed back with the clock at `now2022`. -/
def epochEventRequestParsed : LifecycleRequest :=
  .event
    { lifecycle := .EVENT, execution_id := "e", locale := "en", version := "1",
      event_data := { auth_token := "tok", installed_app := ⟨"ia", "loc", [], []⟩,
                      events := [⟨some now2022, .TIMER_EVENT, none, none, none, none,
                                  none, none, none, none, none, none, none, none, none⟩] },
      settings := [] }

/-- C7 counterexample: an EVENT request whose `event_time` is the UNIX-epoch
sentinel does not round-trip — it serializes to `1970-01-01T00:00:00.000Z`,
which `deserialize_datetime` maps to `now()`, so parsing the serialization
yields a different object. -/
theorem C7_epoch_roundtrip_counterexample :
    structure_LifecycleRequest now2022 (unstructure_LifecycleRequest epochEventRequest) =
      .ok epochEventRequestParsed ∧ epochEventRequestParsed ≠ epochEventRequest := by
  constructor
  · decide
  · decide

/-- C7 amended: `parse(serialize(x)) == x` (attribute-for-attribute equality)
holds for every lifecycle request whose `lifecycle` discriminator matches its
variant and whose event timestamps are valid calendar datetimes of
whole-millisecond precision other than the UNIX-epoch sentinel, and
unconditionally for every one of the eight response classes.  (An epoch
`event_time` parses back as `now()`, and sub-millisecond precision is
truncated to the millisecond wire format — exactly the sentinel/precision
rules of `serialize_datetime`/`deserialize_datetime`.) -/
theorem C7_roundtrip_parse_serialize :
    (∀ (nowDt : PDateTime) (x : LifecycleRequest), x.wf →
        structure_LifecycleRequest nowDt (unstructure_LifecycleRequest x) = .ok x) ∧
    (∀ r : ConfirmationResponse,
        structure_ConfirmationResponse (unstructure_ConfirmationResponse r) = .ok r) ∧
    (∀ r : ConfigurationInitResponse,
        structure_ConfigurationInitResponse (unstructure_ConfigurationInitResponse r) = .ok r) ∧
    (∀ r : ConfigurationPageResponse,
        structure_ConfigurationPageResponse (unstructure_ConfigurationPageResponse r) = .ok r) ∧
    (∀ r : InstallResponse,
        structure_InstallResponse (unstructure_InstallResponse r) = .ok r) ∧
    (∀ r : UpdateResponse,
        structure_UpdateResponse (unstructure_UpdateResponse r) = .ok r) ∧
    (∀ r : UninstallResponse,
        structure_UninstallResponse (unstructure_UninstallResponse r) = .ok r) ∧
    (∀ r : OauthCallbackResponse,
        structure_OauthCallbackResponse (unstructure_OauthCallbackResponse r) = .ok r) ∧
    (∀ r : EventResponse,
        structure_EventResponse (unstructure_EventResponse r) = .ok r) :=
  ⟨rt_LifecycleRequest, rt_ConfirmationResponse, rt_ConfigurationInitResponse,
   rt_ConfigurationPageResponse, rt_InstallResponse, rt_UpdateResponse,
   rt_UninstallResponse, rt_OauthCallbackResponse, rt_EventResponse⟩

/-- C7 witness: a concrete EVENT request with a valid non-epoch millisecond
timestamp round-trips. -/
theorem C7_roundtrip_witness :
    structure_LifecycleRequest now2022 (unstructure_LifecycleRequest
      (.event
        { lifecycle := .EVENT, execution_id := "e", locale := "en", version := "1",
          event_data := { auth_token := "tok", installed_app := ⟨"ia", "loc", [], []⟩,
                          events := [⟨some ⟨2017, 9, 13, 4, 18, 12, 469000⟩, .DEVICE_EVENT,
                                      some [("value", .str "open")], none, none, none, none,
                                      none, none, none, none, none, none, none, none⟩] },
          settings := [("property1", .str "string")] })) =
      .ok (.event
        { lifecycle := .EVENT, execution_id := "e", locale := "en", version := "1",
          event_data := { auth_token := "tok", installed_app := ⟨"ia", "loc", [], []⟩,
                          events := [⟨some ⟨2017, 9, 13, 4, 18, 12, 469000⟩, .DEVICE_EVENT,
                                      some [("value", .str "open")], none, none, none, none,
                                      none, none, none, none, none, none, none, none⟩] },
          settings := [("property1", .str "string")] }) :=
  C7_roundtrip_parse_serialize.1 now2022
    (.event
      { lifecycle := .EVENT, execution_id := "e", locale := "en", version := "1",
        event_data := { auth_token := "tok", installed_app := ⟨"ia", "loc", [], []⟩,
                        events := [⟨some ⟨2017, 9, 13, 4, 18, 12, 469000⟩, .DEVICE_EVENT,
                                    some [("value", .str "open")], none, none, none, none,
                                    none, none, none, none, none, none, none, none⟩] },
        settings := [("property1", .str "string")] })
    (by decide)

end SmartApp
